import Mathlib

/-!
Verification of the robot link protocol client (binary codec, telemetry
decoder, connection lifecycle, receive loop, command dispatcher).

Conventions of the shallow embedding:

* An `ArrayBuffer` / ZeroMQ message buffer is a `List Nat` of bytes
  (each `< 256`).  `DataView` reads are bounds-checked and return
  `Option`/`Except` values: a JavaScript `DataView` access outside the
  buffer throws a `RangeError`, which the embedding models as the
  decode-error case of the result.  In-bounds multi-byte writes replace
  a contiguous slice of the buffer.
* A JavaScript `number` stored with `setFloat64` / read with
  `getFloat64` is represented by its IEEE-754 binary64 bit pattern, a
  `Nat < 2^64`; `DataView` serialization of a double is exactly the
  little-endian layout of that pattern, so the byte-level codec is
  stated over patterns.
* Where the decoded numeric values themselves are computed on
  (the unit conversion and the moving-flag derivation of
  `convertToRobotArmState`), numbers are idealized as exact rationals
  `ℚ`; decimal literals of the source denote their exact decimal value
  and the constant `Math.PI` denotes the exact rational value of the
  binary64 double nearest to π (`0x400921FB54442D18`).
-/

/-- Little-endian byte decomposition: the `w` low-order bytes of `v`,
least significant first (the layout `DataView` uses for
`setUint16/setUint32/setFloat64` with `littleEndian = true`). -/
def leBytes : Nat → Nat → List Nat
  | 0, _ => []
  | w + 1, v => v % 256 :: leBytes w (v / 256)

/-- Little-endian byte recomposition, inverse of `leBytes`. -/
def leVal : List Nat → Nat
  | [] => 0
  | b :: bs => b + 256 * leVal bs

/-- In-bounds `DataView` write: replace the slice of `buf` starting at
`off` by `bs`.  (All writes performed by the source are in bounds of the
buffer allocated by the encoder.) -/
def setBytesAt (buf : List Nat) (off : Nat) (bs : List Nat) : List Nat :=
  buf.take off ++ bs ++ buf.drop (off + bs.length)

/-- Bounds-checked `DataView` read of `n` consecutive bytes at `off`;
`none` models the `RangeError` thrown on an out-of-range access. -/
def readBytesAt (buf : List Nat) (off n : Nat) : Option (List Nat) :=
  if off + n ≤ buf.length then some ((List.range n).map fun i => buf.getD (off + i) 0)
  else none

/-- `DataView.getUint8`. -/
def getUint8 (buf : List Nat) (off : Nat) : Option Nat :=
  (readBytesAt buf off 1).map leVal

/-- `DataView.getUint16(off, littleEndian)`. -/
def getUint16 (buf : List Nat) (off : Nat) : Option Nat :=
  (readBytesAt buf off 2).map leVal

/-- `DataView.getUint32(off, littleEndian)`. -/
def getUint32 (buf : List Nat) (off : Nat) : Option Nat :=
  (readBytesAt buf off 4).map leVal

/-- `DataView.getFloat64(off, littleEndian)`, returning the binary64 bit
pattern of the double that is read. -/
def getFloat64 (buf : List Nat) (off : Nat) : Option Nat :=
  (readBytesAt buf off 8).map leVal

/-- `DataView.setUint8(off, v)` (stores `v` mod 2^8). -/
def setUint8 (buf : List Nat) (off v : Nat) : List Nat :=
  setBytesAt buf off [v % 256]

/-- `DataView.setUint16(off, v, littleEndian)` (stores `v` mod 2^16). -/
def setUint16 (buf : List Nat) (off v : Nat) : List Nat :=
  setBytesAt buf off (leBytes 2 v)

/-- `DataView.setUint32(off, v, littleEndian)` (stores `v` mod 2^32). -/
def setUint32 (buf : List Nat) (off v : Nat) : List Nat :=
  setBytesAt buf off (leBytes 4 v)

/-- `DataView.setFloat64(off, v, littleEndian)` where `v` is the binary64
bit pattern of the double being stored. -/
def setFloat64 (buf : List Nat) (off v : Nat) : List Nat :=
  setBytesAt buf off (leBytes 8 v)

/-- Bit pattern written for the double `NaN`: `setFloat64` applied to
`undefined` (an absent object field or out-of-range array index)
coerces it to `NaN` first. -/
def nanPattern : Nat := 0x7FF8000000000000

/-! ## `src/core/robot/message/Command.ts` -/

/-- `ICommandId` (`{ cid: number }`, a `uint32`). -/
structure ICommandId where
  cid : Nat
deriving DecidableEq, Repr

namespace CommandId

def size : Nat := 4

/-- `CommandId.fromDataView`: reads the `uint32` at the view's base. -/
def fromDataView (buf : List Nat) (base : Nat) : Option ICommandId :=
  (getUint32 buf base).map fun c => { cid := c }

/-- `CommandId.writeToDataView`. -/
def writeToDataView (buf : List Nat) (base : Nat) (data : ICommandId) : List Nat :=
  setUint32 buf base data.cid

end CommandId

/-- `ICommandType` is a TypeScript numeric enum; at runtime its values are
plain numbers, and enum casts are unchecked, so it is embedded as `Nat`
with named constants. -/
def ICommandType : Type := Nat
deriving DecidableEq, Repr

def ICommandType.kTestMessage : ICommandType := (0 : Nat)
def ICommandType.kBasicMove : ICommandType := (1 : Nat)
def ICommandType.kArmStateMsg : ICommandType := (2 : Nat)
def ICommandType.kBasicSyncWait : ICommandType := (3 : Nat)
def ICommandType.kBasicResponse : ICommandType := (4 : Nat)
def ICommandType.kControlMode : ICommandType := (5 : Nat)
def ICommandType.kSetEndEffectorLoadWeight : ICommandType := (6 : Nat)
def ICommandType.kSetEndEffectorLoadPose : ICommandType := (7 : Nat)
def ICommandType.kSetStopExecution : ICommandType := (8 : Nat)
def ICommandType.kSetCollisionDetection : ICommandType := (9 : Nat)
def ICommandType.kUnknown : ICommandType := (10 : Nat)

/-- The numeric value of an `ICommandType` (identity: enums are numbers). -/
def ICommandType.val (t : ICommandType) : Nat := t

namespace CommandType

def size : Nat := 2

/-- `CommandType.fromDataView`: reads the `uint16` and casts it
(unchecked TypeScript `as` cast) to the enum type. -/
def fromDataView (buf : List Nat) (base : Nat) : Option ICommandType :=
  getUint16 buf base

/-- `CommandType.writeToDataView`. -/
def writeToDataView (buf : List Nat) (base : Nat) (data : ICommandType) : List Nat :=
  setUint16 buf base data.val

end CommandType

/-- `IRequestType` numeric enum (`kCallback = 0`, `kNonCallback = 1`),
embedded as `Nat` like `ICommandType`. -/
def IRequestType : Type := Nat
deriving DecidableEq, Repr

def IRequestType.kCallback : IRequestType := (0 : Nat)
def IRequestType.kNonCallback : IRequestType := (1 : Nat)

/-- The numeric value of an `IRequestType`. -/
def IRequestType.val (t : IRequestType) : Nat := t

namespace RequestType

def size : Nat := 1

/-- `RequestType.fromDataView`: reads the `uint8` and casts it. -/
def fromDataView (buf : List Nat) (base : Nat) : Option IRequestType :=
  getUint8 buf base

/-- `RequestType.writeToDataView`. -/
def writeToDataView (buf : List Nat) (base : Nat) (data : IRequestType) : List Nat :=
  setUint8 buf base data.val

end RequestType

/-! ## `src/core/robot/message/BasicMove.ts` -/

/-- `IBasicMoveType` numeric enum (`kJointPosition = 0` … `kOther = 5`),
embedded as `Nat`. -/
def IBasicMoveType : Type := Nat
deriving DecidableEq, Repr

def IBasicMoveType.kJointPosition : IBasicMoveType := (0 : Nat)
def IBasicMoveType.kJointVelocity : IBasicMoveType := (1 : Nat)
def IBasicMoveType.kJointTorques : IBasicMoveType := (2 : Nat)
def IBasicMoveType.kCartesianPose : IBasicMoveType := (3 : Nat)
def IBasicMoveType.kCartesianVelocity : IBasicMoveType := (4 : Nat)
def IBasicMoveType.kOther : IBasicMoveType := (5 : Nat)

/-- The numeric value of an `IBasicMoveType`. -/
def IBasicMoveType.val (t : IBasicMoveType) : Nat := t

namespace BasicMoveType

def size : Nat := 1

/-- `BasicMoveType.fromDataView`. -/
def fromDataView (buf : List Nat) (base : Nat) : Option IBasicMoveType :=
  getUint8 buf base

/-- `BasicMoveType.writeToDataView`. -/
def writeToDataView (buf : List Nat) (base : Nat) (data : IBasicMoveType) : List Nat :=
  setUint8 buf base data.val

end BasicMoveType

/-- The union
`IJointPosition | IJointVelocity | IJointTorques | ICartesianPose | ICartesianVelocity`
of move-target payload shapes.  Each double is carried as its binary64
bit pattern. -/
inductive MoveTarget where
  | jointPosition (joint_positions : List Nat)
  | jointVelocity (joint_velocities : List Nat)
  | jointTorques (torques : List Nat)
  | cartesianPose (position : List Nat) (orientation : List Nat)
  | cartesianVelocity (linear_velocity : List Nat) (angular_velocity : List Nat)
deriving DecidableEq, Repr

/-- Indexing `xs[i]` in JavaScript: an out-of-range index yields
`undefined`, which `setFloat64` coerces to `NaN`. -/
def jsIndex (xs : List Nat) (i : Nat) : Nat :=
  xs.getD i nanPattern

namespace JointPosition

def size : Nat := 48

/-- `JointPosition.fromDataView`: six doubles at view offsets
`4 + i*8`. -/
def fromDataView (buf : List Nat) (base : Nat) : Option (List Nat) := do
  let x0 ← getFloat64 buf (base + 4)
  let x1 ← getFloat64 buf (base + 4 + 8)
  let x2 ← getFloat64 buf (base + 4 + 16)
  let x3 ← getFloat64 buf (base + 4 + 24)
  let x4 ← getFloat64 buf (base + 4 + 32)
  let x5 ← getFloat64 buf (base + 4 + 40)
  return [x0, x1, x2, x3, x4, x5]

/-- `JointPosition.writeToDataView`: six doubles at view offsets
`4 + i*8`. -/
def writeToDataView (buf : List Nat) (base : Nat) (joint_positions : List Nat) : List Nat :=
  (List.range 6).foldl (fun b i => setFloat64 b (base + 4 + i * 8) (jsIndex joint_positions i)) buf

end JointPosition

namespace JointVelocity

def size : Nat := 48

/-- `JointVelocity.fromDataView` (same layout as `JointPosition`). -/
def fromDataView (buf : List Nat) (base : Nat) : Option (List Nat) := do
  let x0 ← getFloat64 buf (base + 4)
  let x1 ← getFloat64 buf (base + 4 + 8)
  let x2 ← getFloat64 buf (base + 4 + 16)
  let x3 ← getFloat64 buf (base + 4 + 24)
  let x4 ← getFloat64 buf (base + 4 + 32)
  let x5 ← getFloat64 buf (base + 4 + 40)
  return [x0, x1, x2, x3, x4, x5]

/-- `JointVelocity.writeToDataView`. -/
def writeToDataView (buf : List Nat) (base : Nat) (joint_velocities : List Nat) : List Nat :=
  (List.range 6).foldl (fun b i => setFloat64 b (base + 4 + i * 8) (jsIndex joint_velocities i)) buf

end JointVelocity

namespace JointTorques

def size : Nat := 48

/-- `JointTorques.fromDataView` (same layout as `JointPosition`). -/
def fromDataView (buf : List Nat) (base : Nat) : Option (List Nat) := do
  let x0 ← getFloat64 buf (base + 4)
  let x1 ← getFloat64 buf (base + 4 + 8)
  let x2 ← getFloat64 buf (base + 4 + 16)
  let x3 ← getFloat64 buf (base + 4 + 24)
  let x4 ← getFloat64 buf (base + 4 + 32)
  let x5 ← getFloat64 buf (base + 4 + 40)
  return [x0, x1, x2, x3, x4, x5]

/-- `JointTorques.writeToDataView`. -/
def writeToDataView (buf : List Nat) (base : Nat) (torques : List Nat) : List Nat :=
  (List.range 6).foldl (fun b i => setFloat64 b (base + 4 + i * 8) (jsIndex torques i)) buf

end JointTorques

namespace CartesianPose

def size : Nat := 48

/-- `CartesianPose.fromDataView`: three position doubles at view offsets
`0, 8, 16`, three orientation doubles at `24, 32, 40`. -/
def fromDataView (buf : List Nat) (base : Nat) : Option (List Nat × List Nat) := do
  let p0 ← getFloat64 buf base
  let p1 ← getFloat64 buf (base + 8)
  let p2 ← getFloat64 buf (base + 16)
  let o0 ← getFloat64 buf (base + 24)
  let o1 ← getFloat64 buf (base + 32)
  let o2 ← getFloat64 buf (base + 40)
  return ([p0, p1, p2], [o0, o1, o2])

/-- `CartesianPose.writeToDataView`. -/
def writeToDataView (buf : List Nat) (base : Nat)
    (position : List Nat) (orientation : List Nat) : List Nat :=
  let b0 := setFloat64 buf base (jsIndex position 0)
  let b1 := setFloat64 b0 (base + 8) (jsIndex position 1)
  let b2 := setFloat64 b1 (base + 16) (jsIndex position 2)
  let b3 := setFloat64 b2 (base + 24) (jsIndex orientation 0)
  let b4 := setFloat64 b3 (base + 32) (jsIndex orientation 1)
  setFloat64 b4 (base + 40) (jsIndex orientation 2)

end CartesianPose

namespace CartesianVelocity

def size : Nat := 48

/-- `CartesianVelocity.fromDataView` (same layout as `CartesianPose`). -/
def fromDataView (buf : List Nat) (base : Nat) : Option (List Nat × List Nat) := do
  let l0 ← getFloat64 buf base
  let l1 ← getFloat64 buf (base + 8)
  let l2 ← getFloat64 buf (base + 16)
  let a0 ← getFloat64 buf (base + 24)
  let a1 ← getFloat64 buf (base + 32)
  let a2 ← getFloat64 buf (base + 40)
  return ([l0, l1, l2], [a0, a1, a2])

/-- `CartesianVelocity.writeToDataView`. -/
def writeToDataView (buf : List Nat) (base : Nat)
    (linear_velocity : List Nat) (angular_velocity : List Nat) : List Nat :=
  let b0 := setFloat64 buf base (jsIndex linear_velocity 0)
  let b1 := setFloat64 b0 (base + 8) (jsIndex linear_velocity 1)
  let b2 := setFloat64 b1 (base + 16) (jsIndex linear_velocity 2)
  let b3 := setFloat64 b2 (base + 24) (jsIndex angular_velocity 0)
  let b4 := setFloat64 b3 (base + 32) (jsIndex angular_velocity 1)
  setFloat64 b4 (base + 40) (jsIndex angular_velocity 2)

end CartesianVelocity

/-- `IBasicMoveReq`: header fields plus the move-target union.  As in the
TypeScript interface, `move_type` and the actual variant of
`move_target` are independent. -/
structure IBasicMoveReq where
  request_type : IRequestType
  command_id : ICommandId
  command_type : ICommandType
  move_type : IBasicMoveType
  move_target : MoveTarget
deriving DecidableEq, Repr

/-- Failures of `BasicMoveReq.toArrayBuffer`: the explicit
`throw new Error("Invalid move type")` of the `default` switch case, and
the `TypeError` raised by indexing into `undefined` when the
`move_target` union value does not actually carry the field selected by
the unchecked `as` cast for `move_type`. -/
inductive EncodeFailure where
  | invalidMoveType
  | typeError
deriving DecidableEq, Repr

namespace BasicMoveReq

/-- `BasicMoveReq.size` = 1 + 4 + 2 + 1 + 5·48 = 248. -/
def size : Nat :=
  RequestType.size + CommandId.size + CommandType.size + BasicMoveType.size +
    JointPosition.size + JointVelocity.size + JointTorques.size +
    CartesianPose.size + CartesianVelocity.size

/-- `BasicMoveReq.toArrayBuffer`: allocates a zeroed buffer of
`BasicMoveReq.size` bytes, writes the header fields at offsets
0, 1, 5, 7, then writes the variant payload through a view based at
offset 8, switching on `move_type` (the `default` case throws). -/
def toArrayBuffer (data : IBasicMoveReq) : Except EncodeFailure (List Nat) := do
  let ret := List.replicate size 0
  let ret := RequestType.writeToDataView ret 0 data.request_type
  let ret := CommandId.writeToDataView ret 1 data.command_id
  let ret := CommandType.writeToDataView ret 5 data.command_type
  let ret := BasicMoveType.writeToDataView ret 7 data.move_type
  if data.move_type.val = 0 then
    match data.move_target with
    | .jointPosition xs => return JointPosition.writeToDataView ret 8 xs
    | _ => throw .typeError
  else if data.move_type.val = 1 then
    match data.move_target with
    | .jointVelocity xs => return JointVelocity.writeToDataView ret 8 xs
    | _ => throw .typeError
  else if data.move_type.val = 2 then
    match data.move_target with
    | .jointTorques xs => return JointTorques.writeToDataView ret 8 xs
    | _ => throw .typeError
  else if data.move_type.val = 3 then
    match data.move_target with
    | .cartesianPose p o => return CartesianPose.writeToDataView ret 8 p o
    | _ => throw .typeError
  else if data.move_type.val = 4 then
    match data.move_target with
    | .cartesianVelocity l a => return CartesianVelocity.writeToDataView ret 8 l a
    | _ => throw .typeError
  else
    throw .invalidMoveType

end BasicMoveReq

/-- Decoder for an encoded command request: the composition of the
header readers (`RequestType` at 0, `CommandId` at 1, `CommandType` at
5, `BasicMoveType` at 7) with the per-variant `fromDataView` reader
based at offset 8, selected by the decoded discriminant; an
out-of-range discriminant has no variant reader (`UnknownMoveType`). -/
def decodeBasicMoveReq (buf : List Nat) : Option IBasicMoveReq := do
  let rt ← RequestType.fromDataView buf 0
  let cid ← CommandId.fromDataView buf 1
  let ct ← CommandType.fromDataView buf 5
  let mt ← BasicMoveType.fromDataView buf 7
  let target ←
    if mt.val = 0 then (JointPosition.fromDataView buf 8).map MoveTarget.jointPosition
    else if mt.val = 1 then (JointVelocity.fromDataView buf 8).map MoveTarget.jointVelocity
    else if mt.val = 2 then (JointTorques.fromDataView buf 8).map MoveTarget.jointTorques
    else if mt.val = 3 then
      (CartesianPose.fromDataView buf 8).map fun po => MoveTarget.cartesianPose po.1 po.2
    else if mt.val = 4 then
      (CartesianVelocity.fromDataView buf 8).map fun la => MoveTarget.cartesianVelocity la.1 la.2
    else none
  return { request_type := rt, command_id := cid, command_type := ct,
           move_type := mt, move_target := target }

/-- A well-typed, internally consistent command request as the spec's
round-trip property quantifies over it: the header fields carry values
of their declared wire width (`request_type` a byte, `command_id` a
`uint32`, `command_type` a `uint16`), `move_type` is the discriminant
matching the variant actually stored in `move_target`, and the variant
carries its full complement of doubles (bit patterns `< 2^64`). -/
def IBasicMoveReq.wellFormed (r : IBasicMoveReq) : Bool :=
  decide (r.request_type.val < 256) &&
  decide (r.command_id.cid < 2 ^ 32) &&
  decide (r.command_type.val < 2 ^ 16) &&
  match r.move_target with
  | .jointPosition xs =>
    r.move_type.val == 0 && xs.length == 6 && xs.all fun v => decide (v < 2 ^ 64)
  | .jointVelocity xs =>
    r.move_type.val == 1 && xs.length == 6 && xs.all fun v => decide (v < 2 ^ 64)
  | .jointTorques xs =>
    r.move_type.val == 2 && xs.length == 6 && xs.all fun v => decide (v < 2 ^ 64)
  | .cartesianPose p o =>
    r.move_type.val == 3 && p.length == 3 && o.length == 3 &&
      (p.all fun v => decide (v < 2 ^ 64)) && (o.all fun v => decide (v < 2 ^ 64))
  | .cartesianVelocity l a =>
    r.move_type.val == 4 && l.length == 3 && a.length == 3 &&
      (l.all fun v => decide (v < 2 ^ 64)) && (a.all fun v => decide (v < 2 ^ 64))

/-- Proof abbreviation (not a source function): the explicit byte layout
the encoder produces for a joint-space request — 8 header bytes, 4
zero bytes of padding (the variant writer's internal offset 4), the six
doubles, and 188 trailing zero bytes. -/
def jointSpaceBytes (rt : IRequestType) (cid : Nat) (ct : ICommandType) (mtByte : Nat)
    (xs : List Nat) : List Nat :=
  rt.val % 256 :: (leBytes 4 cid ++ (leBytes 2 ct.val ++ mtByte :: 0 :: 0 :: 0 :: 0 ::
    (leBytes 8 (jsIndex xs 0) ++ leBytes 8 (jsIndex xs 1) ++ leBytes 8 (jsIndex xs 2) ++
     leBytes 8 (jsIndex xs 3) ++ leBytes 8 (jsIndex xs 4) ++ leBytes 8 (jsIndex xs 5) ++
     List.replicate 188 0)))

/-- Proof abbreviation (not a source function): the explicit byte layout
the encoder produces for a Cartesian request — 8 header bytes, the six
doubles immediately after the header, and 192 trailing zero bytes. -/
def cartesianBytes (rt : IRequestType) (cid : Nat) (ct : ICommandType) (mtByte : Nat)
    (u v : List Nat) : List Nat :=
  rt.val % 256 :: (leBytes 4 cid ++ (leBytes 2 ct.val ++ mtByte ::
    (leBytes 8 (jsIndex u 0) ++ leBytes 8 (jsIndex u 1) ++ leBytes 8 (jsIndex u 2) ++
     leBytes 8 (jsIndex v 0) ++ leBytes 8 (jsIndex v 1) ++ leBytes 8 (jsIndex v 2) ++
     List.replicate 192 0)))

/-! ## `src/core/robot/message/ArmState.ts` and the shared state types -/

/-- `PoseRad` (`src/shared/robot-types.ts`), generic in the scalar
representation. -/
structure PoseRad (α : Type) where
  x : α
  y : α
  z : α
  roll : α
  pitch : α
  yaw : α
deriving DecidableEq, Repr

/-- `PoseDeg` (`src/shared/robot-types.ts`). -/
structure PoseDeg (α : Type) where
  x : α
  y : α
  z : α
  roll : α
  pitch : α
  yaw : α
deriving DecidableEq, Repr

/-- The `cartesian_velocity` record of `RobotStateData`. -/
structure CartesianVelocityData (α : Type) where
  vx : α
  vy : α
  vz : α
  wx : α
  wy : α
  wz : α
deriving DecidableEq, Repr

/-- `RobotStateData` (`ArmState.ts`), generic in the scalar
representation: `Nat` for the raw binary64 bit patterns read off the
wire, `ℚ` for the exact numeric values they denote. -/
structure RobotStateData (α : Type) where
  joint_position : List α
  joint_velocity : List α
  joint_torques : List α
  cartesian_pose : PoseRad α
  cartesian_velocity : CartesianVelocityData α
deriving DecidableEq, Repr

/-- `RobotArmState` (`src/core/robot/types.ts`), with numeric fields as
exact rationals. -/
structure RobotArmState where
  connected : Bool
  enabled : Bool
  moving : Bool
  error : Option String
  currentPose : PoseDeg ℚ
  jointPositions : List ℚ
  jointVelocities : List ℚ
  jointTorques : List ℚ
deriving DecidableEq, Repr

/-- Telemetry decode failure: the `RangeError` thrown by a `DataView`
read past the end of the frame (a frame shorter than required), i.e.
the spec's `TruncatedFrame`. -/
inductive DecodeError where
  | truncatedFrame
deriving DecidableEq, Repr

/-- A `getFloat64` whose out-of-range `RangeError` aborts the whole
parse. -/
def getFloat64E (buf : List Nat) (off : Nat) : Except DecodeError Nat :=
  match getFloat64 buf off with
  | some v => .ok v
  | none => .error .truncatedFrame

/-- The `for`-loop of `ParseRobotStateData` that pushes `n` consecutive
doubles read at `off, off+8, …`. -/
def readDoubleRun (buf : List Nat) (off : Nat) : Nat → Except DecodeError (List Nat)
  | 0 => .ok []
  | n + 1 => do
    let x ← getFloat64E buf off
    let xs ← readDoubleRun buf (off + 8) n
    return x :: xs

/-- The byte-level part of `ParseRobotStateData` (`ArmState.ts`):
`start_offset = 7`; six joint positions at 7, six joint velocities at
`7 + 48 = 55`, six joint torques at 103, the six pose doubles at
151…191 and the six Cartesian velocity doubles at 199…239, all
little-endian.  The doubles are returned as bit patterns; the source
function then applies `convertToRobotArmState` to the numeric values.
A read past the end of the buffer throws, so a short frame produces a
`DecodeError` and no state. -/
def ParseRobotStateData (buf : List Nat) : Except DecodeError (RobotStateData Nat) := do
  let jp ← readDoubleRun buf 7 6
  let jv ← readDoubleRun buf 55 6
  let jt ← readDoubleRun buf 103 6
  let px ← getFloat64E buf 151
  let py ← getFloat64E buf 159
  let pz ← getFloat64E buf 167
  let proll ← getFloat64E buf 175
  let ppitch ← getFloat64E buf 183
  let pyaw ← getFloat64E buf 191
  let vx ← getFloat64E buf 199
  let vy ← getFloat64E buf 207
  let vz ← getFloat64E buf 215
  let wx ← getFloat64E buf 223
  let wy ← getFloat64E buf 231
  let wz ← getFloat64E buf 239
  return { joint_position := jp, joint_velocity := jv, joint_torques := jt,
           cartesian_pose := { x := px, y := py, z := pz,
                               roll := proll, pitch := ppitch, yaw := pyaw },
           cartesian_velocity := { vx := vx, vy := vy, vz := vz,
                                   wx := wx, wy := wy, wz := wz } }

/-- The exact rational value of the binary64 constant `Math.PI`
(bit pattern `0x400921FB54442D18`). -/
def MathPI : ℚ := 884279719003555 / 281474976710656

/-- `convertToRobotArmState` (`ArmState.ts`): derives the `moving` flag
from the raw velocities, always reports `connected := true`,
`enabled := true` and no inline error, converts pose linear units
m→mm (`× 1000`) and every angle/angular rate rad→deg
(`× 180 / Math.PI`), and passes torques through unchanged. -/
def convertToRobotArmState (data : RobotStateData ℚ) : RobotArmState :=
  let isMoving :=
    (data.joint_velocity.any fun vel => decide (|vel| > 0.001)) ||
    decide (|data.cartesian_velocity.vx| > 0.001) ||
    decide (|data.cartesian_velocity.vy| > 0.001) ||
    decide (|data.cartesian_velocity.vz| > 0.001) ||
    decide (|data.cartesian_velocity.wx| > 0.001) ||
    decide (|data.cartesian_velocity.wy| > 0.001) ||
    decide (|data.cartesian_velocity.wz| > 0.001)
  { connected := true
    enabled := true
    moving := isMoving
    error := none
    currentPose :=
      { x := data.cartesian_pose.x * 1000
        y := data.cartesian_pose.y * 1000
        z := data.cartesian_pose.z * 1000
        roll := data.cartesian_pose.roll * 180 / MathPI
        pitch := data.cartesian_pose.pitch * 180 / MathPI
        yaw := data.cartesian_pose.yaw * 180 / MathPI }
    jointPositions := data.joint_position.map fun pos => pos * 180 / MathPI
    jointVelocities := data.joint_velocity.map fun vel => vel * 180 / MathPI
    jointTorques := data.joint_torques }

/-! ## `src/core/robot/ArmStateSubscriber.ts` -/

/-- `ConnectionConfig`. -/
structure ConnectionConfig where
  ipAddress : String
  port : Nat
  topic : Option String
  messageTimeout : Option Nat
  maxConsecutiveTimeouts : Option Nat
deriving DecidableEq, Repr

/-- `Partial<ConnectionConfig>`: each field optionally present. -/
structure PartialConnectionConfig where
  ipAddress : Option String
  port : Option Nat
  topic : Option String
  messageTimeout : Option Nat
  maxConsecutiveTimeouts : Option Nat
deriving DecidableEq, Repr

/-- The object spread `{ ...current, ...config }` used by `connect`. -/
def mergeConfig (cur : ConnectionConfig) (cfg : PartialConnectionConfig) : ConnectionConfig :=
  { ipAddress := cfg.ipAddress.getD cur.ipAddress
    port := cfg.port.getD cur.port
    topic := (cfg.topic.map some).getD cur.topic
    messageTimeout := (cfg.messageTimeout.map some).getD cur.messageTimeout
    maxConsecutiveTimeouts := (cfg.maxConsecutiveTimeouts.map some).getD cur.maxConsecutiveTimeouts }

/-- `this.currentConfig?.maxConsecutiveTimeouts || 3`: JavaScript `||`
falls through on the falsy values `undefined` and `0`. -/
def maxConsecutiveTimeoutsOf (cfg : ConnectionConfig) : Nat :=
  match cfg.maxConsecutiveTimeouts with
  | some v => if v = 0 then 3 else v
  | none => 3

/-- The connection-status values of the `connectionStatusChanged`
event. -/
inductive ConnStatus where
  | disconnected
  | connecting
  | connected
  | errorStatus
deriving DecidableEq, Repr

/-- Events emitted by the `ArmStateSubscriber` event emitter.  Payloads
(the decoded state of `stateUpdate`, the message of `error`) are not
tracked here; only the event occurrences and their order. -/
inductive EmittedEvent where
  | stateUpdate
  | errorEvent
  | connectedEvent
  | disconnectedEvent
  | statusChanged (status : ConnStatus)
deriving DecidableEq, Repr

/-- The lifecycle state owned by one `ArmStateSubscriber`: the
`isConnected` / `isConnecting` flags and the stored configuration.
(The three ZMQ socket handles are allocated once in the constructor and
are never replaced by `connect`, so they carry no state relevant
here.) -/
structure SubscriberState where
  isConnected : Bool
  isConnecting : Bool
  currentConfig : ConnectionConfig
deriving DecidableEq, Repr

/-- `connect(config?)`.  The outcome of the discovery handshake
(`make_connection`, which performs transport I/O) is supplied as the
parameter `handshakeOk`.  Returns the new lifecycle state, the emitted
events in order, and whether the discovery handshake was attempted at
all. -/
def connect (st : SubscriberState) (config : Option PartialConnectionConfig)
    (handshakeOk : Bool) : SubscriberState × List EmittedEvent × Bool :=
  if st.isConnecting || st.isConnected then
    (st, [], false)
  else
    let st1 :=
      match config with
      | some cfg => { st with currentConfig := mergeConfig st.currentConfig cfg }
      | none => st
    if handshakeOk then
      ({ st1 with isConnected := true, isConnecting := false },
       [.statusChanged .connecting, .connectedEvent, .statusChanged .connected], true)
    else
      ({ st1 with isConnected := false, isConnecting := false },
       [.statusChanged .connecting, .errorEvent, .statusChanged .errorStatus], true)

/-- One outcome of a wait for the next telemetry frame inside
`runSubscriptionLoop`: the `Promise.race` yields a message (whose parse
succeeds or fails), the synthetic timeout fires, the subscriber's async
iterator reports `done`, or the wait fails with a non-timeout transport
error. -/
inductive RecvOutcome where
  | message (parseOk : Bool)
  | timeout
  | closed
  | failure
deriving DecidableEq, Repr

/-- `runSubscriptionLoop`, for a connection that stays caller-connected
(`isConnected` remains `true`; caller-initiated disconnect is a
separate silent-exit path).  `cnt` is the running
`consecutiveTimeouts` counter and the list is the sequence of wait
outcomes delivered by the transport; the result is the sequence of
events the loop emits.  A successful receive resets the counter and
(when the frame parses) emits `stateUpdate`; a parse failure is only
logged; a timeout increments the counter and, once it reaches
`maxTimeouts`, the loop emits one `error` event and one
`connectionStatusChanged("error")` event and terminates; a non-timeout
failure emits one `error` event and terminates; iterator exhaustion
terminates silently. -/
def runSubscriptionLoop (maxTimeouts : Nat) : Nat → List RecvOutcome → List EmittedEvent
  | _, [] => []
  | cnt, outcome :: rest =>
    match outcome with
    | .message parseOk =>
      (if parseOk then [.stateUpdate] else []) ++ runSubscriptionLoop maxTimeouts 0 rest
    | .closed => []
    | .timeout =>
      if cnt + 1 ≥ maxTimeouts then [.errorEvent, .statusChanged .errorStatus]
      else runSubscriptionLoop maxTimeouts (cnt + 1) rest
    | .failure => [.errorEvent]

/-- `ToolResponse` as produced by `formatResponse.toolResult` /
`formatResponse.toolError` (a helper outside this component, modeled as
the two tagged constructors).  Dynamic `JSON.stringify(...)` suffixes
of the success texts are elided. -/
inductive ToolResponse where
  | toolResult (text : String)
  | toolError (text : String)
deriving DecidableEq, Repr

/-- The `data` payload of the `connect` command
(`{ ipAddress, port, topic? }`). -/
structure ConnectCommandData where
  ipAddress : Option String
  port : Option Nat
  topic : Option String
deriving DecidableEq, Repr

/-- `handleConnect`: validates presence (JavaScript truthiness, so an
empty string or port `0` also fails) of `ipAddress` and `port` before
invoking the lifecycle `connect`. -/
def handleConnect (data : Option ConnectCommandData) : ToolResponse :=
  match data with
  | none => .toolError "Missing connection parameters (ipAddress, port)"
  | some d =>
    match d.ipAddress, d.port with
    | some ip, some p =>
      if ip = "" then .toolError "Missing connection parameters (ipAddress, port)"
      else if p = 0 then .toolError "Missing connection parameters (ipAddress, port)"
      else .toolResult s!"Connecting to robot arm at {ip}:{p}"
    | _, _ => .toolError "Missing connection parameters (ipAddress, port)"

/-- `executeCommand({command, data})`, restricted to the returned
`ToolResponse` (the lifecycle side effects of the
connect/disconnect/reconnect handlers are modeled by `connect` above).
`connected` is the subscriber's `isConnected` flag at the time of the
call.  Handlers for `enable`, `disable`, `home`, `move_to_target`,
`stop` and `reset` guard on the flag; `emergency_stop`,
`save_home_position` and `reset_home_position` do not. -/
def executeCommand (connected : Bool) (command : String)
    (data : Option ConnectCommandData) : ToolResponse :=
  if command = "connect" then handleConnect data
  else if command = "disconnect" then .toolResult "Disconnected from robot arm"
  else if command = "reconnect" then .toolResult "Reconnecting to robot arm"
  else if command = "enable" then
    if !connected then .toolError "Robot arm is not connected"
    else .toolResult "Robot arm enabled"
  else if command = "disable" then
    if !connected then .toolError "Robot arm is not connected"
    else .toolResult "Robot arm disabled"
  else if command = "home" then
    if !connected then .toolError "Robot arm is not connected"
    else .toolResult "Moving to home position"
  else if command = "move_to_target" then
    if !connected then .toolError "Robot arm is not connected"
    else .toolResult "Moving to target position"
  else if command = "stop" then
    if !connected then .toolError "Robot arm is not connected"
    else .toolResult "Robot arm stopped"
  else if command = "emergency_stop" then .toolResult "Emergency stop activated"
  else if command = "reset" then
    if !connected then .toolError "Robot arm is not connected"
    else .toolResult "Robot arm reset"
  else if command = "save_home_position" then .toolResult "Home position saved"
  else if command = "reset_home_position" then .toolResult "Home position reset to default"
  else .toolError s!"Unknown command: {command}"

/-! ## Byte-level lemmas -/

theorem leBytes_length (w : Nat) : ∀ v, (leBytes w v).length = w := by
  induction w with
  | zero => intro v; rfl
  | succ w ih => intro v; simp [leBytes, ih]

theorem leVal_leBytes (w : Nat) : ∀ v, leVal (leBytes w v) = v % 256 ^ w := by
  induction w with
  | zero => intro v; simp [leBytes, leVal, Nat.mod_one]
  | succ w ih =>
    intro v
    simp only [leBytes, leVal, ih]
    rw [pow_succ', (Nat.mod_mul_right_div_self v 256 (256 ^ w)).symm]
    rw [(Nat.mod_mod_of_dvd v ⟨256 ^ w, rfl⟩).symm.trans rfl]
    exact Nat.mod_add_div _ _

theorem setBytesAt_length (buf : List Nat) (off : Nat) (bs : List Nat)
    (h : off + bs.length ≤ buf.length) :
    (setBytesAt buf off bs).length = buf.length := by
  simp [setBytesAt]
  omega

theorem getD_setBytesAt_left (buf : List Nat) (off : Nat) (bs : List Nat) (j : Nat)
    (hj : j < off) (h : off ≤ buf.length) :
    (setBytesAt buf off bs).getD j 0 = buf.getD j 0 := by
  unfold setBytesAt
  rw [List.append_assoc, List.getD_append _ _ _ _ (by simp; omega)]
  rcases Nat.lt_or_ge j buf.length with hb | hb
  · rw [List.getD_eq_getElem _ _ (by simp; omega), List.getD_eq_getElem _ _ hb]
    simp [List.getElem_take]
  · omega

theorem getD_setBytesAt_mid (buf : List Nat) (off : Nat) (bs : List Nat) (j : Nat)
    (h1 : off ≤ j) (h2 : j < off + bs.length) (h : off + bs.length ≤ buf.length) :
    (setBytesAt buf off bs).getD j 0 = bs.getD (j - off) 0 := by
  unfold setBytesAt
  rw [List.append_assoc, List.getD_append_right _ _ _ _ (by simp; omega)]
  rw [List.getD_append _ _ _ _ (by simp; omega)]
  congr 1
  simp
  omega

theorem getD_setBytesAt_right (buf : List Nat) (off : Nat) (bs : List Nat) (j : Nat)
    (h1 : off + bs.length ≤ j) (h : off + bs.length ≤ buf.length) :
    (setBytesAt buf off bs).getD j 0 = buf.getD j 0 := by
  unfold setBytesAt
  rw [List.append_assoc, List.getD_append_right _ _ _ _ (by simp; omega)]
  rw [List.getD_append_right _ _ _ _ (by simp; omega)]
  rcases Nat.lt_or_ge j buf.length with hb | hb
  · rw [List.getD_eq_getElem _ _ (by simp; omega), List.getD_eq_getElem _ _ hb]
    simp
    congr 1
    omega
  · rw [List.getD_eq_default _ _ (by simp; omega), List.getD_eq_default _ _ hb]

theorem map_getD_range (bs : List Nat) : (List.range bs.length).map (fun i => bs.getD i 0) = bs := by
  induction bs with
  | nil => rfl
  | cons b bs ih =>
    simp only [List.length_cons, List.range_succ_eq_map, List.map_cons, List.map_map]
    exact congrArg (b :: ·) ih

theorem readBytesAt_congr (buf1 buf2 : List Nat) (off n : Nat)
    (hlen : buf1.length = buf2.length)
    (h : ∀ i < n, buf1.getD (off + i) 0 = buf2.getD (off + i) 0) :
    readBytesAt buf1 off n = readBytesAt buf2 off n := by
  unfold readBytesAt
  rw [hlen]
  rcases le_or_lt (off + n) buf2.length with hb | hb
  · rw [if_pos hb, if_pos hb]
    exact congrArg some (List.map_congr_left fun i hi => h i (List.mem_range.mp hi))
  · rw [if_neg (by omega), if_neg (by omega)]

theorem readBytesAt_setBytesAt_disjoint (buf : List Nat) (off : Nat) (bs : List Nat)
    (off2 n : Nat) (hin : off + bs.length ≤ buf.length)
    (hdisj : off2 + n ≤ off ∨ off + bs.length ≤ off2) :
    readBytesAt (setBytesAt buf off bs) off2 n = readBytesAt buf off2 n := by
  apply readBytesAt_congr _ _ _ _ (setBytesAt_length buf off bs hin)
  intro i hi
  rcases hdisj with hd | hd
  · exact getD_setBytesAt_left buf off bs (off2 + i) (by omega) (by omega)
  · exact getD_setBytesAt_right buf off bs (off2 + i) (by omega) hin

theorem readBytesAt_setBytesAt_self (buf : List Nat) (off : Nat) (bs : List Nat)
    (hin : off + bs.length ≤ buf.length) :
    readBytesAt (setBytesAt buf off bs) off bs.length = some bs := by
  unfold readBytesAt
  rw [if_pos (by rw [setBytesAt_length buf off bs hin]; omega)]
  refine congrArg some ?_
  calc (List.range bs.length).map (fun i => (setBytesAt buf off bs).getD (off + i) 0)
      = (List.range bs.length).map (fun i => bs.getD i 0) := by
        refine List.map_congr_left fun i hi => ?_
        rw [getD_setBytesAt_mid buf off bs (off + i)
          (by omega) (by have := List.mem_range.mp hi; omega) hin]
        congr 1
        omega
    _ = bs := map_getD_range bs

set_option maxRecDepth 10000 in
set_option maxHeartbeats 1000000 in
theorem toArrayBuffer_ok_cases (r : IBasicMoveReq) (buf : List Nat)
    (henc : BasicMoveReq.toArrayBuffer r = .ok buf) :
    (∃ xs, r.move_type.val = 0 ∧ r.move_target = .jointPosition xs ∧
      buf = jointSpaceBytes r.request_type r.command_id.cid r.command_type 0 xs) ∨
    (∃ xs, r.move_type.val = 1 ∧ r.move_target = .jointVelocity xs ∧
      buf = jointSpaceBytes r.request_type r.command_id.cid r.command_type 1 xs) ∨
    (∃ xs, r.move_type.val = 2 ∧ r.move_target = .jointTorques xs ∧
      buf = jointSpaceBytes r.request_type r.command_id.cid r.command_type 2 xs) ∨
    (∃ p o, r.move_type.val = 3 ∧ r.move_target = .cartesianPose p o ∧
      buf = cartesianBytes r.request_type r.command_id.cid r.command_type 3 p o) ∨
    (∃ l a, r.move_type.val = 4 ∧ r.move_target = .cartesianVelocity l a ∧
      buf = cartesianBytes r.request_type r.command_id.cid r.command_type 4 l a) := by
  obtain ⟨rt, ⟨cid⟩, ct, mt, tgt⟩ := r
  simp only [BasicMoveReq.toArrayBuffer] at henc
  by_cases h0 : mt.val = 0
  · rw [if_pos h0] at henc
    cases tgt with
    | jointPosition xs =>
      refine Or.inl ⟨xs, h0, rfl, ?_⟩
      have hmt : mt = (0 : Nat) := h0
      subst hmt
      simp only [pure, Except.pure, Except.ok.injEq] at henc
      subst henc
      simp [jointSpaceBytes, JointPosition.writeToDataView, BasicMoveType.writeToDataView,
        CommandType.writeToDataView, CommandId.writeToDataView, RequestType.writeToDataView,
        BasicMoveReq.size, RequestType.size, CommandId.size, CommandType.size,
        BasicMoveType.size, JointPosition.size, JointVelocity.size, JointTorques.size,
        CartesianPose.size, CartesianVelocity.size, setUint8, setUint16, setUint32, setFloat64,
        setBytesAt, List.drop_replicate, leBytes, List.range_succ, IRequestType.val,
        ICommandType.val, IBasicMoveType.val]
    | jointVelocity xs => exact absurd henc (by simp [throw, throwThe, MonadExceptOf.throw])
    | jointTorques xs => exact absurd henc (by simp [throw, throwThe, MonadExceptOf.throw])
    | cartesianPose p o => exact absurd henc (by simp [throw, throwThe, MonadExceptOf.throw])
    | cartesianVelocity l a => exact absurd henc (by simp [throw, throwThe, MonadExceptOf.throw])
  · rw [if_neg h0] at henc
    by_cases h1 : mt.val = 1
    · rw [if_pos h1] at henc
      cases tgt with
      | jointVelocity xs =>
        refine Or.inr (Or.inl ⟨xs, h1, rfl, ?_⟩)
        have hmt : mt = (1 : Nat) := h1
        subst hmt
        simp only [pure, Except.pure, Except.ok.injEq] at henc
        subst henc
        simp [jointSpaceBytes, JointVelocity.writeToDataView, BasicMoveType.writeToDataView,
          CommandType.writeToDataView, CommandId.writeToDataView, RequestType.writeToDataView,
          BasicMoveReq.size, RequestType.size, CommandId.size, CommandType.size,
          BasicMoveType.size, JointPosition.size, JointVelocity.size, JointTorques.size,
          CartesianPose.size, CartesianVelocity.size, setUint8, setUint16, setUint32, setFloat64,
          setBytesAt, List.drop_replicate, leBytes, List.range_succ, IRequestType.val,
          ICommandType.val, IBasicMoveType.val]
      | jointPosition xs => exact absurd henc (by simp [throw, throwThe, MonadExceptOf.throw])
      | jointTorques xs => exact absurd henc (by simp [throw, throwThe, MonadExceptOf.throw])
      | cartesianPose p o => exact absurd henc (by simp [throw, throwThe, MonadExceptOf.throw])
      | cartesianVelocity l a => exact absurd henc (by simp [throw, throwThe, MonadExceptOf.throw])
    · rw [if_neg h1] at henc
      by_cases h2 : mt.val = 2
      · rw [if_pos h2] at henc
        cases tgt with
        | jointTorques xs =>
          refine Or.inr (Or.inr (Or.inl ⟨xs, h2, rfl, ?_⟩))
          have hmt : mt = (2 : Nat) := h2
          subst hmt
          simp only [pure, Except.pure, Except.ok.injEq] at henc
          subst henc
          simp [jointSpaceBytes, JointTorques.writeToDataView, BasicMoveType.writeToDataView,
            CommandType.writeToDataView, CommandId.writeToDataView, RequestType.writeToDataView,
            BasicMoveReq.size, RequestType.size, CommandId.size, CommandType.size,
            BasicMoveType.size, JointPosition.size, JointVelocity.size, JointTorques.size,
            CartesianPose.size, CartesianVelocity.size, setUint8, setUint16, setUint32,
            setFloat64, setBytesAt, List.drop_replicate, leBytes, List.range_succ,
            IRequestType.val, ICommandType.val, IBasicMoveType.val]
        | jointPosition xs => exact absurd henc (by simp [throw, throwThe, MonadExceptOf.throw])
        | jointVelocity xs => exact absurd henc (by simp [throw, throwThe, MonadExceptOf.throw])
        | cartesianPose p o => exact absurd henc (by simp [throw, throwThe, MonadExceptOf.throw])
        | cartesianVelocity l a => exact absurd henc (by simp [throw, throwThe, MonadExceptOf.throw])
      · rw [if_neg h2] at henc
        by_cases h3 : mt.val = 3
        · rw [if_pos h3] at henc
          cases tgt with
          | cartesianPose p o =>
            refine Or.inr (Or.inr (Or.inr (Or.inl ⟨p, o, h3, rfl, ?_⟩)))
            have hmt : mt = (3 : Nat) := h3
            subst hmt
            simp only [pure, Except.pure, Except.ok.injEq] at henc
            subst henc
            simp [cartesianBytes, CartesianPose.writeToDataView, BasicMoveType.writeToDataView,
              CommandType.writeToDataView, CommandId.writeToDataView, RequestType.writeToDataView,
              BasicMoveReq.size, RequestType.size, CommandId.size, CommandType.size,
              BasicMoveType.size, JointPosition.size, JointVelocity.size, JointTorques.size,
              CartesianPose.size, CartesianVelocity.size, setUint8, setUint16, setUint32,
              setFloat64, setBytesAt, List.drop_replicate, leBytes, List.range_succ,
              IRequestType.val, ICommandType.val, IBasicMoveType.val]
          | jointPosition xs => exact absurd henc (by simp [throw, throwThe, MonadExceptOf.throw])
          | jointVelocity xs => exact absurd henc (by simp [throw, throwThe, MonadExceptOf.throw])
          | jointTorques xs => exact absurd henc (by simp [throw, throwThe, MonadExceptOf.throw])
          | cartesianVelocity l a =>
            exact absurd henc (by simp [throw, throwThe, MonadExceptOf.throw])
        · rw [if_neg h3] at henc
          by_cases h4 : mt.val = 4
          · rw [if_pos h4] at henc
            cases tgt with
            | cartesianVelocity l a =>
              refine Or.inr (Or.inr (Or.inr (Or.inr ⟨l, a, h4, rfl, ?_⟩)))
              have hmt : mt = (4 : Nat) := h4
              subst hmt
              simp only [pure, Except.pure, Except.ok.injEq] at henc
              subst henc
              simp [cartesianBytes, CartesianVelocity.writeToDataView,
                BasicMoveType.writeToDataView, CommandType.writeToDataView,
                CommandId.writeToDataView, RequestType.writeToDataView, BasicMoveReq.size,
                RequestType.size, CommandId.size, CommandType.size, BasicMoveType.size,
                JointPosition.size, JointVelocity.size, JointTorques.size, CartesianPose.size,
                CartesianVelocity.size, setUint8, setUint16, setUint32, setFloat64, setBytesAt,
                List.drop_replicate, leBytes, List.range_succ, IRequestType.val,
                ICommandType.val, IBasicMoveType.val]
            | jointPosition xs => exact absurd henc (by simp [throw, throwThe, MonadExceptOf.throw])
            | jointVelocity xs => exact absurd henc (by simp [throw, throwThe, MonadExceptOf.throw])
            | jointTorques xs => exact absurd henc (by simp [throw, throwThe, MonadExceptOf.throw])
            | cartesianPose p o => exact absurd henc (by simp [throw, throwThe, MonadExceptOf.throw])
          · rw [if_neg h4] at henc
            exact absurd henc (by simp [throw, throwThe, MonadExceptOf.throw])

set_option maxRecDepth 10000 in
set_option maxHeartbeats 2000000 in
theorem decode_jointSpaceBytes0 (rt : IRequestType) (cid : Nat) (ct : ICommandType)
    (a b c d e f : Nat) (hrt : rt.val < 256) (hcid : cid < 2 ^ 32) (hct : ct.val < 2 ^ 16)
    (ha : a < 2 ^ 64) (hb : b < 2 ^ 64) (hc : c < 2 ^ 64) (hd : d < 2 ^ 64) (he : e < 2 ^ 64)
    (hf : f < 2 ^ 64) :
    decodeBasicMoveReq (jointSpaceBytes rt cid ct 0 [a, b, c, d, e, f]) =
      some { request_type := rt, command_id := { cid := cid }, command_type := ct,
             move_type := (0 : Nat), move_target := .jointPosition [a, b, c, d, e, f] } := by
  simp only [decodeBasicMoveReq, RequestType.fromDataView, CommandId.fromDataView,
    CommandType.fromDataView, BasicMoveType.fromDataView, JointPosition.fromDataView,
    getUint8, getUint16, getUint32, getFloat64, IBasicMoveType.val, jointSpaceBytes]
  simp [readBytesAt, leBytes, leVal, List.range_succ, List.getD, Option.bind, jsIndex,
    IBasicMoveReq.mk.injEq, ICommandId.mk.injEq]
  refine ⟨?_, by omega, ?_, by omega, by omega, by omega, by omega, by omega, by omega⟩
  · show rt.val % 256 = rt.val
    omega
  · show ct.val % 256 + 256 * (ct.val / 256 % 256) = ct.val
    omega

set_option maxRecDepth 10000 in
set_option maxHeartbeats 2000000 in
theorem decode_jointSpaceBytes1 (rt : IRequestType) (cid : Nat) (ct : ICommandType)
    (a b c d e f : Nat) (hrt : rt.val < 256) (hcid : cid < 2 ^ 32) (hct : ct.val < 2 ^ 16)
    (ha : a < 2 ^ 64) (hb : b < 2 ^ 64) (hc : c < 2 ^ 64) (hd : d < 2 ^ 64) (he : e < 2 ^ 64)
    (hf : f < 2 ^ 64) :
    decodeBasicMoveReq (jointSpaceBytes rt cid ct 1 [a, b, c, d, e, f]) =
      some { request_type := rt, command_id := { cid := cid }, command_type := ct,
             move_type := (1 : Nat), move_target := .jointVelocity [a, b, c, d, e, f] } := by
  simp only [decodeBasicMoveReq, RequestType.fromDataView, CommandId.fromDataView,
    CommandType.fromDataView, BasicMoveType.fromDataView, JointVelocity.fromDataView,
    getUint8, getUint16, getUint32, getFloat64, IBasicMoveType.val, jointSpaceBytes]
  simp [readBytesAt, leBytes, leVal, List.range_succ, List.getD, Option.bind, jsIndex,
    IBasicMoveReq.mk.injEq, ICommandId.mk.injEq]
  refine ⟨?_, by omega, ?_, by omega, by omega, by omega, by omega, by omega, by omega⟩
  · show rt.val % 256 = rt.val
    omega
  · show ct.val % 256 + 256 * (ct.val / 256 % 256) = ct.val
    omega

set_option maxRecDepth 10000 in
set_option maxHeartbeats 2000000 in
theorem decode_jointSpaceBytes2 (rt : IRequestType) (cid : Nat) (ct : ICommandType)
    (a b c d e f : Nat) (hrt : rt.val < 256) (hcid : cid < 2 ^ 32) (hct : ct.val < 2 ^ 16)
    (ha : a < 2 ^ 64) (hb : b < 2 ^ 64) (hc : c < 2 ^ 64) (hd : d < 2 ^ 64) (he : e < 2 ^ 64)
    (hf : f < 2 ^ 64) :
    decodeBasicMoveReq (jointSpaceBytes rt cid ct 2 [a, b, c, d, e, f]) =
      some { request_type := rt, command_id := { cid := cid }, command_type := ct,
             move_type := (2 : Nat), move_target := .jointTorques [a, b, c, d, e, f] } := by
  simp only [decodeBasicMoveReq, RequestType.fromDataView, CommandId.fromDataView,
    CommandType.fromDataView, BasicMoveType.fromDataView, JointTorques.fromDataView,
    getUint8, getUint16, getUint32, getFloat64, IBasicMoveType.val, jointSpaceBytes]
  simp [readBytesAt, leBytes, leVal, List.range_succ, List.getD, Option.bind, jsIndex,
    IBasicMoveReq.mk.injEq, ICommandId.mk.injEq]
  refine ⟨?_, by omega, ?_, by omega, by omega, by omega, by omega, by omega, by omega⟩
  · show rt.val % 256 = rt.val
    omega
  · show ct.val % 256 + 256 * (ct.val / 256 % 256) = ct.val
    omega

set_option maxRecDepth 10000 in
set_option maxHeartbeats 2000000 in
theorem decode_cartesianBytes3 (rt : IRequestType) (cid : Nat) (ct : ICommandType)
    (a b c d e f : Nat) (hrt : rt.val < 256) (hcid : cid < 2 ^ 32) (hct : ct.val < 2 ^ 16)
    (ha : a < 2 ^ 64) (hb : b < 2 ^ 64) (hc : c < 2 ^ 64) (hd : d < 2 ^ 64) (he : e < 2 ^ 64)
    (hf : f < 2 ^ 64) :
    decodeBasicMoveReq (cartesianBytes rt cid ct 3 [a, b, c] [d, e, f]) =
      some { request_type := rt, command_id := { cid := cid }, command_type := ct,
             move_type := (3 : Nat), move_target := .cartesianPose [a, b, c] [d, e, f] } := by
  simp only [decodeBasicMoveReq, RequestType.fromDataView, CommandId.fromDataView,
    CommandType.fromDataView, BasicMoveType.fromDataView, CartesianPose.fromDataView,
    getUint8, getUint16, getUint32, getFloat64, IBasicMoveType.val, cartesianBytes]
  simp [readBytesAt, leBytes, leVal, List.range_succ, List.getD, Option.bind, jsIndex,
    IBasicMoveReq.mk.injEq, ICommandId.mk.injEq]
  and_intros <;> (try show rt.val % 256 = rt.val) <;>
    (try show ct.val % 256 + 256 * (ct.val / 256 % 256) = ct.val) <;> omega

set_option maxRecDepth 10000 in
set_option maxHeartbeats 2000000 in
theorem decode_cartesianBytes4 (rt : IRequestType) (cid : Nat) (ct : ICommandType)
    (a b c d e f : Nat) (hrt : rt.val < 256) (hcid : cid < 2 ^ 32) (hct : ct.val < 2 ^ 16)
    (ha : a < 2 ^ 64) (hb : b < 2 ^ 64) (hc : c < 2 ^ 64) (hd : d < 2 ^ 64) (he : e < 2 ^ 64)
    (hf : f < 2 ^ 64) :
    decodeBasicMoveReq (cartesianBytes rt cid ct 4 [a, b, c] [d, e, f]) =
      some { request_type := rt, command_id := { cid := cid }, command_type := ct,
             move_type := (4 : Nat), move_target := .cartesianVelocity [a, b, c] [d, e, f] } := by
  simp only [decodeBasicMoveReq, RequestType.fromDataView, CommandId.fromDataView,
    CommandType.fromDataView, BasicMoveType.fromDataView, CartesianVelocity.fromDataView,
    getUint8, getUint16, getUint32, getFloat64, IBasicMoveType.val, cartesianBytes]
  simp [readBytesAt, leBytes, leVal, List.range_succ, List.getD, Option.bind, jsIndex,
    IBasicMoveReq.mk.injEq, ICommandId.mk.injEq]
  and_intros <;> (try show rt.val % 256 = rt.val) <;>
    (try show ct.val % 256 + 256 * (ct.val / 256 % 256) = ct.val) <;> omega

set_option maxRecDepth 10000 in
set_option maxHeartbeats 2000000 in
theorem jointSpaceBytes_header (rt : IRequestType) (cid : Nat) (ct : ICommandType)
    (mtB : Nat) (xs : List Nat) :
    (jointSpaceBytes rt cid ct mtB xs).length = 248 ∧
    getUint8 (jointSpaceBytes rt cid ct mtB xs) 0 = some (rt.val % 256) ∧
    getUint32 (jointSpaceBytes rt cid ct mtB xs) 1 = some (cid % 2 ^ 32) ∧
    getUint16 (jointSpaceBytes rt cid ct mtB xs) 5 = some (ct.val % 2 ^ 16) ∧
    getUint8 (jointSpaceBytes rt cid ct mtB xs) 7 = some mtB := by
  simp [jointSpaceBytes, getUint8, getUint16, getUint32, readBytesAt, leBytes, leVal,
    List.range_succ, List.getD]
  and_intros <;> omega

set_option maxRecDepth 10000 in
set_option maxHeartbeats 2000000 in
theorem cartesianBytes_header (rt : IRequestType) (cid : Nat) (ct : ICommandType)
    (mtB : Nat) (u v : List Nat) :
    (cartesianBytes rt cid ct mtB u v).length = 248 ∧
    getUint8 (cartesianBytes rt cid ct mtB u v) 0 = some (rt.val % 256) ∧
    getUint32 (cartesianBytes rt cid ct mtB u v) 1 = some (cid % 2 ^ 32) ∧
    getUint16 (cartesianBytes rt cid ct mtB u v) 5 = some (ct.val % 2 ^ 16) ∧
    getUint8 (cartesianBytes rt cid ct mtB u v) 7 = some mtB := by
  simp [cartesianBytes, getUint8, getUint16, getUint32, readBytesAt, leBytes, leVal,
    List.range_succ, List.getD]
  and_intros <;> omega

set_option maxRecDepth 10000 in
set_option maxHeartbeats 2000000 in
theorem jointSpaceBytes_payload (rt : IRequestType) (cid : Nat) (ct : ICommandType)
    (mtB : Nat) (a b c d e f : Nat) (ha : a < 2 ^ 64) (hb : b < 2 ^ 64) (hc : c < 2 ^ 64)
    (hd : d < 2 ^ 64) (he : e < 2 ^ 64) (hf : f < 2 ^ 64) :
    (jointSpaceBytes rt cid ct mtB [a, b, c, d, e, f]).getD 8 0 = 0 ∧
    (jointSpaceBytes rt cid ct mtB [a, b, c, d, e, f]).getD 9 0 = 0 ∧
    (jointSpaceBytes rt cid ct mtB [a, b, c, d, e, f]).getD 10 0 = 0 ∧
    (jointSpaceBytes rt cid ct mtB [a, b, c, d, e, f]).getD 11 0 = 0 ∧
    getFloat64 (jointSpaceBytes rt cid ct mtB [a, b, c, d, e, f]) 12 = some a ∧
    getFloat64 (jointSpaceBytes rt cid ct mtB [a, b, c, d, e, f]) 20 = some b ∧
    getFloat64 (jointSpaceBytes rt cid ct mtB [a, b, c, d, e, f]) 28 = some c ∧
    getFloat64 (jointSpaceBytes rt cid ct mtB [a, b, c, d, e, f]) 36 = some d ∧
    getFloat64 (jointSpaceBytes rt cid ct mtB [a, b, c, d, e, f]) 44 = some e ∧
    getFloat64 (jointSpaceBytes rt cid ct mtB [a, b, c, d, e, f]) 52 = some f := by
  simp [jointSpaceBytes, getFloat64, readBytesAt, leBytes, leVal, List.range_succ,
    List.getD, jsIndex]
  and_intros <;> omega

set_option maxRecDepth 10000 in
set_option maxHeartbeats 2000000 in
theorem cartesianBytes_payload (rt : IRequestType) (cid : Nat) (ct : ICommandType)
    (mtB : Nat) (a b c d e f : Nat) (ha : a < 2 ^ 64) (hb : b < 2 ^ 64) (hc : c < 2 ^ 64)
    (hd : d < 2 ^ 64) (he : e < 2 ^ 64) (hf : f < 2 ^ 64) :
    getFloat64 (cartesianBytes rt cid ct mtB [a, b, c] [d, e, f]) 8 = some a ∧
    getFloat64 (cartesianBytes rt cid ct mtB [a, b, c] [d, e, f]) 16 = some b ∧
    getFloat64 (cartesianBytes rt cid ct mtB [a, b, c] [d, e, f]) 24 = some c ∧
    getFloat64 (cartesianBytes rt cid ct mtB [a, b, c] [d, e, f]) 32 = some d ∧
    getFloat64 (cartesianBytes rt cid ct mtB [a, b, c] [d, e, f]) 40 = some e ∧
    getFloat64 (cartesianBytes rt cid ct mtB [a, b, c] [d, e, f]) 48 = some f := by
  simp [cartesianBytes, getFloat64, readBytesAt, leBytes, leVal, List.range_succ,
    List.getD, jsIndex]
  and_intros <;> omega

theorem list6_of_length (xs : List Nat) (h : xs.length = 6) :
    ∃ a b c d e f, xs = [a, b, c, d, e, f] := by
  match xs, h with
  | [a, b, c, d, e, f], _ => exact ⟨a, b, c, d, e, f, rfl⟩

theorem list3_of_length (xs : List Nat) (h : xs.length = 3) :
    ∃ a b c, xs = [a, b, c] := by
  match xs, h with
  | [a, b, c], _ => exact ⟨a, b, c, rfl⟩

/-- Claim C3: for every valid command request `r` (each of the five
move-type variants: joint position, joint velocity, joint torque,
Cartesian pose, Cartesian velocity), decoding the bytes produced by
`BasicMoveReq.toArrayBuffer` — reading the header fields at offsets
0, 1, 5, 7 and the variant payload with the variant's `fromDataView`
based at offset 8 — returns a request equal to `r`:
`decode (encode r) = r`. -/
theorem decode_encode_roundtrip (r : IBasicMoveReq) (h : r.wellFormed = true)
    (buf : List Nat) (henc : BasicMoveReq.toArrayBuffer r = .ok buf) :
    decodeBasicMoveReq buf = some r := by
  obtain ⟨rt, ⟨cid⟩, ct, mt, tgt⟩ := r
  rcases toArrayBuffer_ok_cases _ buf henc with
    ⟨xs, hmt, htv, hbuf⟩ | ⟨xs, hmt, htv, hbuf⟩ | ⟨xs, hmt, htv, hbuf⟩ |
    ⟨p, o, hmt, htv, hbuf⟩ | ⟨l, a, hmt, htv, hbuf⟩ <;>
      simp only [] at htv hbuf <;> subst htv <;> subst hbuf
  · simp only [IBasicMoveReq.wellFormed, Bool.and_eq_true, decide_eq_true_eq, beq_iff_eq,
      List.all_eq_true] at h
    obtain ⟨⟨⟨hrt, hcid⟩, hct⟩, ⟨hmtv, hlen⟩, hbound⟩ := h
    obtain ⟨a, b, c, d, e, f, rfl⟩ := list6_of_length xs hlen
    have hmt0 : mt = (0 : Nat) := hmt
    subst hmt0
    exact decode_jointSpaceBytes0 rt cid ct a b c d e f hrt hcid hct
      (hbound _ (by simp)) (hbound _ (by simp)) (hbound _ (by simp))
      (hbound _ (by simp)) (hbound _ (by simp)) (hbound _ (by simp))
  · simp only [IBasicMoveReq.wellFormed, Bool.and_eq_true, decide_eq_true_eq, beq_iff_eq,
      List.all_eq_true] at h
    obtain ⟨⟨⟨hrt, hcid⟩, hct⟩, ⟨hmtv, hlen⟩, hbound⟩ := h
    obtain ⟨a, b, c, d, e, f, rfl⟩ := list6_of_length xs hlen
    have hmt1 : mt = (1 : Nat) := hmt
    subst hmt1
    exact decode_jointSpaceBytes1 rt cid ct a b c d e f hrt hcid hct
      (hbound _ (by simp)) (hbound _ (by simp)) (hbound _ (by simp))
      (hbound _ (by simp)) (hbound _ (by simp)) (hbound _ (by simp))
  · simp only [IBasicMoveReq.wellFormed, Bool.and_eq_true, decide_eq_true_eq, beq_iff_eq,
      List.all_eq_true] at h
    obtain ⟨⟨⟨hrt, hcid⟩, hct⟩, ⟨hmtv, hlen⟩, hbound⟩ := h
    obtain ⟨a, b, c, d, e, f, rfl⟩ := list6_of_length xs hlen
    have hmt2 : mt = (2 : Nat) := hmt
    subst hmt2
    exact decode_jointSpaceBytes2 rt cid ct a b c d e f hrt hcid hct
      (hbound _ (by simp)) (hbound _ (by simp)) (hbound _ (by simp))
      (hbound _ (by simp)) (hbound _ (by simp)) (hbound _ (by simp))
  · simp only [IBasicMoveReq.wellFormed, Bool.and_eq_true, decide_eq_true_eq, beq_iff_eq,
      List.all_eq_true] at h
    obtain ⟨⟨⟨hrt, hcid⟩, hct⟩, ⟨⟨⟨hmtv, hpl⟩, hol⟩, hpb⟩, hob⟩ := h
    obtain ⟨a, b, c, rfl⟩ := list3_of_length p hpl
    obtain ⟨d, e, f, rfl⟩ := list3_of_length o hol
    have hmt3 : mt = (3 : Nat) := hmt
    subst hmt3
    exact decode_cartesianBytes3 rt cid ct a b c d e f hrt hcid hct
      (hpb _ (by simp)) (hpb _ (by simp)) (hpb _ (by simp))
      (hob _ (by simp)) (hob _ (by simp)) (hob _ (by simp))
  · simp only [IBasicMoveReq.wellFormed, Bool.and_eq_true, decide_eq_true_eq, beq_iff_eq,
      List.all_eq_true] at h
    obtain ⟨⟨⟨hrt, hcid⟩, hct⟩, ⟨⟨⟨hmtv, hll⟩, hal⟩, hlb⟩, hab⟩ := h
    obtain ⟨x0, x1, x2, rfl⟩ := list3_of_length l hll
    obtain ⟨y0, y1, y2, rfl⟩ := list3_of_length a hal
    have hmt4 : mt = (4 : Nat) := hmt
    subst hmt4
    exact decode_cartesianBytes4 rt cid ct x0 x1 x2 y0 y1 y2 hrt hcid hct
      (hlb _ (by simp)) (hlb _ (by simp)) (hlb _ (by simp))
      (hab _ (by simp)) (hab _ (by simp)) (hab _ (by simp))

/-- Witness for C3: a concrete joint-position request round-trips. -/
theorem decode_encode_roundtrip_witness :
    decodeBasicMoveReq ([1, 2, 1, 0, 0, 1, 0, 0] ++ List.replicate 240 0) =
      some { request_type := IRequestType.kNonCallback, command_id := { cid := 258 },
             command_type := ICommandType.kBasicMove, move_type := IBasicMoveType.kJointPosition,
             move_target := .jointPosition [0, 0, 0, 0, 0, 0] } :=
  decode_encode_roundtrip _ (by decide) _ (by rfl)

/-- Claim C9: every command request that encodes successfully produces
exactly 248 bytes: the 8-byte header
`[request_type: u8][command_id: u32-LE][command_type: u16-LE][move_type: u8]`
at offsets 0, 1, 5, 7 followed by a fixed 240-byte payload region, the
same constant wire size for every move-type variant. -/
theorem toArrayBuffer_wire_layout (r : IBasicMoveReq) (buf : List Nat)
    (henc : BasicMoveReq.toArrayBuffer r = .ok buf) :
    buf.length = 248 ∧
    getUint8 buf 0 = some (r.request_type.val % 2 ^ 8) ∧
    getUint32 buf 1 = some (r.command_id.cid % 2 ^ 32) ∧
    getUint16 buf 5 = some (r.command_type.val % 2 ^ 16) ∧
    getUint8 buf 7 = some r.move_type.val := by
  rcases toArrayBuffer_ok_cases _ buf henc with
    ⟨xs, hmt, htv, hbuf⟩ | ⟨xs, hmt, htv, hbuf⟩ | ⟨xs, hmt, htv, hbuf⟩ |
    ⟨p, o, hmt, htv, hbuf⟩ | ⟨l, a, hmt, htv, hbuf⟩ <;> subst hbuf <;> rw [hmt] <;>
    first
      | exact jointSpaceBytes_header r.request_type r.command_id.cid r.command_type _ xs
      | exact cartesianBytes_header r.request_type r.command_id.cid r.command_type _ _ _

/-- Witness for C9: the layout facts at a concrete encoded request. -/
theorem toArrayBuffer_wire_layout_witness :
    ([1, 2, 1, 0, 0, 1, 0, 0] ++ List.replicate 240 (0 : Nat)).length = 248 ∧
    getUint8 ([1, 2, 1, 0, 0, 1, 0, 0] ++ List.replicate 240 0) 0 = some (1 % 2 ^ 8) ∧
    getUint32 ([1, 2, 1, 0, 0, 1, 0, 0] ++ List.replicate 240 0) 1 = some (258 % 2 ^ 32) ∧
    getUint16 ([1, 2, 1, 0, 0, 1, 0, 0] ++ List.replicate 240 0) 5 = some (1 % 2 ^ 16) ∧
    getUint8 ([1, 2, 1, 0, 0, 1, 0, 0] ++ List.replicate 240 0) 7 = some 0 :=
  toArrayBuffer_wire_layout
    { request_type := IRequestType.kNonCallback, command_id := { cid := 258 },
      command_type := ICommandType.kBasicMove, move_type := IBasicMoveType.kJointPosition,
      move_target := .jointPosition [0, 0, 0, 0, 0, 0] } _ (by rfl)

/-- Claim C10: inside a successfully encoded command the byte position
of the 48-byte move-target payload depends on the variant: for a
joint-space request (joint position / velocity / torques) the six
doubles start at byte offset 12 (offsets 12, 20, 28, 36, 44, 52),
leaving bytes 8-11 zero, while for a Cartesian request (pose /
velocity) they start at byte offset 8 immediately after the header
(offsets 8, 16, 24, 32, 40, 48). -/
theorem payload_offset_by_variant (r : IBasicMoveReq) (buf : List Nat)
    (h : r.wellFormed = true) (henc : BasicMoveReq.toArrayBuffer r = .ok buf) :
    (∀ xs, (r.move_target = .jointPosition xs ∨ r.move_target = .jointVelocity xs ∨
        r.move_target = .jointTorques xs) →
      buf.getD 8 0 = 0 ∧ buf.getD 9 0 = 0 ∧ buf.getD 10 0 = 0 ∧ buf.getD 11 0 = 0 ∧
      getFloat64 buf 12 = some (jsIndex xs 0) ∧ getFloat64 buf 20 = some (jsIndex xs 1) ∧
      getFloat64 buf 28 = some (jsIndex xs 2) ∧ getFloat64 buf 36 = some (jsIndex xs 3) ∧
      getFloat64 buf 44 = some (jsIndex xs 4) ∧ getFloat64 buf 52 = some (jsIndex xs 5)) ∧
    (∀ u v, (r.move_target = .cartesianPose u v ∨ r.move_target = .cartesianVelocity u v) →
      getFloat64 buf 8 = some (jsIndex u 0) ∧ getFloat64 buf 16 = some (jsIndex u 1) ∧
      getFloat64 buf 24 = some (jsIndex u 2) ∧ getFloat64 buf 32 = some (jsIndex v 0) ∧
      getFloat64 buf 40 = some (jsIndex v 1) ∧ getFloat64 buf 48 = some (jsIndex v 2)) := by
  rcases toArrayBuffer_ok_cases _ buf henc with
    ⟨xs, hmt, htv, hbuf⟩ | ⟨xs, hmt, htv, hbuf⟩ | ⟨xs, hmt, htv, hbuf⟩ |
    ⟨p, o, hmt, htv, hbuf⟩ | ⟨l, a, hmt, htv, hbuf⟩ <;> subst hbuf <;>
    simp only [IBasicMoveReq.wellFormed, htv, Bool.and_eq_true, decide_eq_true_eq,
      beq_iff_eq, List.all_eq_true] at h
  · obtain ⟨⟨⟨hrt, hcid⟩, hct⟩, ⟨hmtv, hlen⟩, hbound⟩ := h
    obtain ⟨a, b, c, d, e, f, hxs⟩ := list6_of_length xs hlen
    subst hxs
    constructor
    · rintro xs' (hx | hx | hx) <;> rw [htv] at hx
      · rw [MoveTarget.jointPosition.injEq] at hx
        subst hx
        simpa [jsIndex, List.getD] using jointSpaceBytes_payload r.request_type
          r.command_id.cid r.command_type 0 a b c d e f
          (hbound _ (by simp)) (hbound _ (by simp)) (hbound _ (by simp))
          (hbound _ (by simp)) (hbound _ (by simp)) (hbound _ (by simp))
      · exact absurd hx (by simp)
      · exact absurd hx (by simp)
    · rintro u v (hx | hx) <;> rw [htv] at hx <;> exact absurd hx (by simp)
  · obtain ⟨⟨⟨hrt, hcid⟩, hct⟩, ⟨hmtv, hlen⟩, hbound⟩ := h
    obtain ⟨a, b, c, d, e, f, hxs⟩ := list6_of_length xs hlen
    subst hxs
    constructor
    · rintro xs' (hx | hx | hx) <;> rw [htv] at hx
      · exact absurd hx (by simp)
      · rw [MoveTarget.jointVelocity.injEq] at hx
        subst hx
        simpa [jsIndex, List.getD] using jointSpaceBytes_payload r.request_type
          r.command_id.cid r.command_type 1 a b c d e f
          (hbound _ (by simp)) (hbound _ (by simp)) (hbound _ (by simp))
          (hbound _ (by simp)) (hbound _ (by simp)) (hbound _ (by simp))
      · exact absurd hx (by simp)
    · rintro u v (hx | hx) <;> rw [htv] at hx <;> exact absurd hx (by simp)
  · obtain ⟨⟨⟨hrt, hcid⟩, hct⟩, ⟨hmtv, hlen⟩, hbound⟩ := h
    obtain ⟨a, b, c, d, e, f, hxs⟩ := list6_of_length xs hlen
    subst hxs
    constructor
    · rintro xs' (hx | hx | hx) <;> rw [htv] at hx
      · exact absurd hx (by simp)
      · exact absurd hx (by simp)
      · rw [MoveTarget.jointTorques.injEq] at hx
        subst hx
        simpa [jsIndex, List.getD] using jointSpaceBytes_payload r.request_type
          r.command_id.cid r.command_type 2 a b c d e f
          (hbound _ (by simp)) (hbound _ (by simp)) (hbound _ (by simp))
          (hbound _ (by simp)) (hbound _ (by simp)) (hbound _ (by simp))
    · rintro u v (hx | hx) <;> rw [htv] at hx <;> exact absurd hx (by simp)
  · obtain ⟨⟨⟨hrt, hcid⟩, hct⟩, ⟨⟨⟨hmtv, hpl⟩, hol⟩, hpb⟩, hob⟩ := h
    obtain ⟨a, b, c, hp⟩ := list3_of_length p hpl
    obtain ⟨d, e, f, ho⟩ := list3_of_length o hol
    subst hp
    subst ho
    constructor
    · rintro xs' (hx | hx | hx) <;> rw [htv] at hx <;> exact absurd hx (by simp)
    · rintro u v (hx | hx) <;> rw [htv] at hx
      · rw [MoveTarget.cartesianPose.injEq] at hx
        obtain ⟨hx1, hx2⟩ := hx
        subst hx1
        subst hx2
        simpa [jsIndex, List.getD] using cartesianBytes_payload r.request_type
          r.command_id.cid r.command_type 3 a b c d e f
          (hpb _ (by simp)) (hpb _ (by simp)) (hpb _ (by simp))
          (hob _ (by simp)) (hob _ (by simp)) (hob _ (by simp))
      · exact absurd hx (by simp)
  · obtain ⟨⟨⟨hrt, hcid⟩, hct⟩, ⟨⟨⟨hmtv, hll⟩, hal⟩, hlb⟩, hab⟩ := h
    obtain ⟨x0, x1, x2, hl⟩ := list3_of_length l hll
    obtain ⟨y0, y1, y2, ha2⟩ := list3_of_length a hal
    subst hl
    subst ha2
    constructor
    · rintro xs' (hx | hx | hx) <;> rw [htv] at hx <;> exact absurd hx (by simp)
    · rintro u v (hx | hx) <;> rw [htv] at hx
      · exact absurd hx (by simp)
      · rw [MoveTarget.cartesianVelocity.injEq] at hx
        obtain ⟨hx1, hx2⟩ := hx
        subst hx1
        subst hx2
        simpa [jsIndex, List.getD] using cartesianBytes_payload r.request_type
          r.command_id.cid r.command_type 4 x0 x1 x2 y0 y1 y2
          (hlb _ (by simp)) (hlb _ (by simp)) (hlb _ (by simp))
          (hab _ (by simp)) (hab _ (by simp)) (hab _ (by simp))

/-- Witness for C10: payload placement at a concrete joint-position
request (doubles at offsets 12…52, bytes 8-11 zero). -/
theorem payload_offset_by_variant_witness :
    ([1, 2, 1, 0, 0, 1, 0, 0] ++ List.replicate 240 (0 : Nat)).getD 8 0 = 0 ∧
    getFloat64 ([1, 2, 1, 0, 0, 1, 0, 0] ++ List.replicate 240 0) 12 = some 0 :=
  by
    have h := payload_offset_by_variant
      { request_type := IRequestType.kNonCallback, command_id := { cid := 258 },
        command_type := ICommandType.kBasicMove, move_type := IBasicMoveType.kJointPosition,
        move_target := .jointPosition [0, 0, 0, 0, 0, 0] } _ (by decide) (by rfl)
    have h2 := h.1 [0, 0, 0, 0, 0, 0] (Or.inl rfl)
    exact ⟨h2.1, h2.2.2.2.2.1⟩

/-- Counterexample for C8: `kOther` (discriminant 5) is a value of the
`IBasicMoveType` enum, so a request carrying it is well-typed, yet
`BasicMoveReq.toArrayBuffer` fails on it (the `default` switch case
throws `"Invalid move type"`) instead of returning bytes. -/
theorem toArrayBuffer_kOther_counterexample :
    BasicMoveReq.toArrayBuffer
      { request_type := IRequestType.kCallback, command_id := { cid := 0 },
        command_type := ICommandType.kBasicMove, move_type := IBasicMoveType.kOther,
        move_target := .jointPosition [0, 0, 0, 0, 0, 0] } =
      .error .invalidMoveType := by
  rfl

/-- Claim C8 (amended): command-request encoding is a pure function of
its input (it is modeled as one) and never fails for well-typed input
whose move-type discriminant is one of the five move variants (0–4)
with the matching payload variant; for `move_type = kOther` (5) the
encoder instead throws `"Invalid move type"`. -/
theorem toArrayBuffer_total_on_move_variants :
    (∀ r : IBasicMoveReq, r.wellFormed = true →
      (BasicMoveReq.toArrayBuffer r).toOption.isSome = true) ∧
    (∀ r : IBasicMoveReq, r.move_type.val = IBasicMoveType.kOther.val →
      BasicMoveReq.toArrayBuffer r = .error .invalidMoveType) := by
  constructor
  · intro r h
    obtain ⟨rt, ⟨cid⟩, ct, mt, tgt⟩ := r
    cases tgt <;>
      simp only [IBasicMoveReq.wellFormed, Bool.and_eq_true, decide_eq_true_eq, beq_iff_eq,
        List.all_eq_true] at h
    · have hmt : mt = (0 : Nat) := h.2.1.1
      subst hmt
      simp [BasicMoveReq.toArrayBuffer, pure, Except.pure, Except.toOption,
        IBasicMoveType.val]
    · have hmt : mt = (1 : Nat) := h.2.1.1
      subst hmt
      simp [BasicMoveReq.toArrayBuffer, pure, Except.pure, Except.toOption,
        IBasicMoveType.val]
    · have hmt : mt = (2 : Nat) := h.2.1.1
      subst hmt
      simp [BasicMoveReq.toArrayBuffer, pure, Except.pure, Except.toOption,
        IBasicMoveType.val]
    · have hmt : mt = (3 : Nat) := h.2.1.1.1.1
      subst hmt
      simp [BasicMoveReq.toArrayBuffer, pure, Except.pure, Except.toOption,
        IBasicMoveType.val]
    · have hmt : mt = (4 : Nat) := h.2.1.1.1.1
      subst hmt
      simp [BasicMoveReq.toArrayBuffer, pure, Except.pure, Except.toOption,
        IBasicMoveType.val]
  · intro r hmt
    simp [BasicMoveReq.toArrayBuffer, hmt, throw, throwThe, MonadExceptOf.throw,
      IBasicMoveType.kOther, IBasicMoveType.val] at hmt ⊢
    rw [if_neg (by omega), if_neg (by omega), if_neg (by omega), if_neg (by omega),
      if_neg (by omega)]

/-- Witness for C8: encoding succeeds at a concrete Cartesian-pose
request, and fails at a concrete `kOther` request. -/
theorem toArrayBuffer_total_on_move_variants_witness :
    (BasicMoveReq.toArrayBuffer
      { request_type := IRequestType.kCallback, command_id := { cid := 7 },
        command_type := ICommandType.kBasicMove, move_type := IBasicMoveType.kCartesianPose,
        move_target := .cartesianPose [1, 2, 3] [4, 5, 6] }).toOption.isSome = true ∧
    BasicMoveReq.toArrayBuffer
      { request_type := IRequestType.kNonCallback, command_id := { cid := 9 },
        command_type := ICommandType.kControlMode, move_type := IBasicMoveType.kOther,
        move_target := .cartesianPose [1, 2, 3] [4, 5, 6] } =
      .error .invalidMoveType :=
  ⟨toArrayBuffer_total_on_move_variants.1 _ (by decide),
   toArrayBuffer_total_on_move_variants.2 _ (by decide)⟩

theorem except_bind_ok {α β : Type} (v : α) (f : α → Except DecodeError β) :
    (Except.ok v >>= f) = f v := rfl

theorem except_bind_err {α β : Type} (e : DecodeError) (f : α → Except DecodeError β) :
    ((Except.error e : Except DecodeError α) >>= f) = .error e := rfl

theorem getFloat64E_err (buf : List Nat) (off : Nat) (h : buf.length < off + 8) :
    getFloat64E buf off = .error .truncatedFrame := by
  unfold getFloat64E getFloat64 readBytesAt
  rw [if_neg (by omega)]
  rfl

theorem getFloat64E_ok (buf : List Nat) (off : Nat) (h : off + 8 ≤ buf.length) :
    ∃ v, getFloat64E buf off = .ok v := by
  unfold getFloat64E getFloat64 readBytesAt
  rw [if_pos h]
  exact ⟨_, rfl⟩

theorem readDoubleRun_err (buf : List Nat) (off n : Nat) (h1 : 0 < n)
    (h2 : buf.length < off + 8 * n) :
    readDoubleRun buf off n = .error .truncatedFrame := by
  induction n generalizing off with
  | zero => omega
  | succ n ih =>
    unfold readDoubleRun
    rcases Nat.lt_or_ge buf.length (off + 8) with hb | hb
    · rw [getFloat64E_err buf off hb]
      rfl
    · obtain ⟨v, hv⟩ := getFloat64E_ok buf off hb
      rw [hv, except_bind_ok]
      cases n with
      | zero => omega
      | succ m =>
        rw [ih (off + 8) (by omega) (by omega)]
        rfl

theorem readDoubleRun_ok (buf : List Nat) (off n : Nat) (h : off + 8 * n ≤ buf.length) :
    ∃ xs, readDoubleRun buf off n = .ok xs := by
  induction n generalizing off with
  | zero => exact ⟨[], rfl⟩
  | succ n ih =>
    obtain ⟨v, hv⟩ := getFloat64E_ok buf off (by omega)
    obtain ⟨xs, hxs⟩ := ih (off + 8) (by omega)
    refine ⟨v :: xs, ?_⟩
    unfold readDoubleRun
    rw [hv, except_bind_ok, hxs, except_bind_ok]
    rfl

/-- Claim C2: a telemetry frame shorter than 247 bytes
(`7 + 30 × 8`) makes `ParseRobotStateData` fail with the
truncated-frame decode error (the `RangeError` of the out-of-range
`DataView` read), and in particular it never produces a partial or
garbage state: the parse returns no state at all. -/
theorem parse_truncated_frame (buf : List Nat) (h : buf.length < 247) :
    ParseRobotStateData buf = .error .truncatedFrame := by
  unfold ParseRobotStateData
  by_cases h1 : buf.length < 55
  · rw [readDoubleRun_err buf 7 6 (by omega) (by omega)]
    rfl
  · obtain ⟨jp, hjp⟩ := readDoubleRun_ok buf 7 6 (by omega)
    rw [hjp, except_bind_ok]
    by_cases h2 : buf.length < 103
    · rw [readDoubleRun_err buf 55 6 (by omega) (by omega)]
      rfl
    · obtain ⟨jv, hjv⟩ := readDoubleRun_ok buf 55 6 (by omega)
      rw [hjv, except_bind_ok]
      by_cases h3 : buf.length < 151
      · rw [readDoubleRun_err buf 103 6 (by omega) (by omega)]
        rfl
      · obtain ⟨jt, hjt⟩ := readDoubleRun_ok buf 103 6 (by omega)
        rw [hjt, except_bind_ok]
        by_cases h4 : buf.length < 159
        · rw [getFloat64E_err buf 151 (by omega)]
          rfl
        · obtain ⟨px, hpx⟩ := getFloat64E_ok buf 151 (by omega)
          rw [hpx, except_bind_ok]
          by_cases h5 : buf.length < 167
          · rw [getFloat64E_err buf 159 (by omega)]
            rfl
          · obtain ⟨py, hpy⟩ := getFloat64E_ok buf 159 (by omega)
            rw [hpy, except_bind_ok]
            by_cases h6 : buf.length < 175
            · rw [getFloat64E_err buf 167 (by omega)]
              rfl
            · obtain ⟨pz, hpz⟩ := getFloat64E_ok buf 167 (by omega)
              rw [hpz, except_bind_ok]
              by_cases h7 : buf.length < 183
              · rw [getFloat64E_err buf 175 (by omega)]
                rfl
              · obtain ⟨pr, hpr⟩ := getFloat64E_ok buf 175 (by omega)
                rw [hpr, except_bind_ok]
                by_cases h8 : buf.length < 191
                · rw [getFloat64E_err buf 183 (by omega)]
                  rfl
                · obtain ⟨pp, hpp⟩ := getFloat64E_ok buf 183 (by omega)
                  rw [hpp, except_bind_ok]
                  by_cases h9 : buf.length < 199
                  · rw [getFloat64E_err buf 191 (by omega)]
                    rfl
                  · obtain ⟨pw, hpw⟩ := getFloat64E_ok buf 191 (by omega)
                    rw [hpw, except_bind_ok]
                    by_cases h10 : buf.length < 207
                    · rw [getFloat64E_err buf 199 (by omega)]
                      rfl
                    · obtain ⟨vx, hvx⟩ := getFloat64E_ok buf 199 (by omega)
                      rw [hvx, except_bind_ok]
                      by_cases h11 : buf.length < 215
                      · rw [getFloat64E_err buf 207 (by omega)]
                        rfl
                      · obtain ⟨vy, hvy⟩ := getFloat64E_ok buf 207 (by omega)
                        rw [hvy, except_bind_ok]
                        by_cases h12 : buf.length < 223
                        · rw [getFloat64E_err buf 215 (by omega)]
                          rfl
                        · obtain ⟨vz, hvz⟩ := getFloat64E_ok buf 215 (by omega)
                          rw [hvz, except_bind_ok]
                          by_cases h13 : buf.length < 231
                          · rw [getFloat64E_err buf 223 (by omega)]
                            rfl
                          · obtain ⟨wx, hwx⟩ := getFloat64E_ok buf 223 (by omega)
                            rw [hwx, except_bind_ok]
                            by_cases h14 : buf.length < 239
                            · rw [getFloat64E_err buf 231 (by omega)]
                              rfl
                            · obtain ⟨wy, hwy⟩ := getFloat64E_ok buf 231 (by omega)
                              rw [hwy, except_bind_ok]
                              rw [getFloat64E_err buf 239 (by omega)]
                              rfl

/-- Witness for C2: a concrete 246-byte frame is rejected as
truncated. -/
theorem parse_truncated_frame_witness :
    ParseRobotStateData (List.replicate 246 0) = .error .truncatedFrame :=
  parse_truncated_frame (List.replicate 246 0) (by rw [List.length_replicate]; omega)

/-- Claim C4: for every decoded telemetry frame, the `moving` flag is
true iff some joint velocity's absolute value (in native rad/s, before
unit conversion) exceeds 0.001 or some Cartesian velocity component's
absolute value exceeds 0.001; in particular all-zero velocities give
`moving = false` and any single velocity component equal to 0.01 gives
`moving = true`. -/
theorem convert_moving_rule :
    (∀ d : RobotStateData ℚ,
      (convertToRobotArmState d).moving = true ↔
        ((∃ v ∈ d.joint_velocity, (0.001 : ℚ) < |v|) ∨
          (0.001 : ℚ) < |d.cartesian_velocity.vx| ∨
          (0.001 : ℚ) < |d.cartesian_velocity.vy| ∨
          (0.001 : ℚ) < |d.cartesian_velocity.vz| ∨
          (0.001 : ℚ) < |d.cartesian_velocity.wx| ∨
          (0.001 : ℚ) < |d.cartesian_velocity.wy| ∨
          (0.001 : ℚ) < |d.cartesian_velocity.wz|)) ∧
    (∀ d : RobotStateData ℚ, d.joint_velocity = [0, 0, 0, 0, 0, 0] →
      d.cartesian_velocity = ⟨0, 0, 0, 0, 0, 0⟩ →
      (convertToRobotArmState d).moving = false) ∧
    (∀ d : RobotStateData ℚ,
      ((0.01 : ℚ) ∈ d.joint_velocity ∨ d.cartesian_velocity.vx = 0.01 ∨
        d.cartesian_velocity.vy = 0.01 ∨ d.cartesian_velocity.vz = 0.01 ∨
        d.cartesian_velocity.wx = 0.01 ∨ d.cartesian_velocity.wy = 0.01 ∨
        d.cartesian_velocity.wz = 0.01) →
      (convertToRobotArmState d).moving = true) := by
  have hmain : ∀ d : RobotStateData ℚ,
      (convertToRobotArmState d).moving = true ↔
        ((∃ v ∈ d.joint_velocity, (0.001 : ℚ) < |v|) ∨
          (0.001 : ℚ) < |d.cartesian_velocity.vx| ∨
          (0.001 : ℚ) < |d.cartesian_velocity.vy| ∨
          (0.001 : ℚ) < |d.cartesian_velocity.vz| ∨
          (0.001 : ℚ) < |d.cartesian_velocity.wx| ∨
          (0.001 : ℚ) < |d.cartesian_velocity.wy| ∨
          (0.001 : ℚ) < |d.cartesian_velocity.wz|) := by
    intro d
    simp only [convertToRobotArmState, Bool.or_eq_true, List.any_eq_true,
      decide_eq_true_eq, gt_iff_lt, or_assoc]
  refine ⟨hmain, ?_, ?_⟩
  · intro d h1 h2
    rw [← Bool.not_eq_true, hmain d, h1, h2]
    norm_num
  · intro d h
    rw [hmain d]
    have habs : (0.001 : ℚ) < |(0.01 : ℚ)| := by
      rw [abs_of_nonneg (by norm_num)]
      norm_num
    rcases h with h | h | h | h | h | h | h
    · exact Or.inl ⟨0.01, h, habs⟩
    all_goals rw [h]
    · exact Or.inr (Or.inl habs)
    · exact Or.inr (Or.inr (Or.inl habs))
    · exact Or.inr (Or.inr (Or.inr (Or.inl habs)))
    · exact Or.inr (Or.inr (Or.inr (Or.inr (Or.inl habs))))
    · exact Or.inr (Or.inr (Or.inr (Or.inr (Or.inr (Or.inl habs)))))
    · exact Or.inr (Or.inr (Or.inr (Or.inr (Or.inr (Or.inr habs)))))

/-- Witness for C4: a frame with all-zero velocities is not moving, and
one whose first Cartesian velocity component is 0.01 is moving. -/
theorem convert_moving_rule_witness :
    (convertToRobotArmState
      { joint_position := [0, 0, 0, 0, 0, 0], joint_velocity := [0, 0, 0, 0, 0, 0],
        joint_torques := [0, 0, 0, 0, 0, 0],
        cartesian_pose := ⟨0, 0, 0, 0, 0, 0⟩,
        cartesian_velocity := ⟨0, 0, 0, 0, 0, 0⟩ }).moving = false ∧
    (convertToRobotArmState
      { joint_position := [0, 0, 0, 0, 0, 0], joint_velocity := [0, 0, 0, 0, 0, 0],
        joint_torques := [0, 0, 0, 0, 0, 0],
        cartesian_pose := ⟨0, 0, 0, 0, 0, 0⟩,
        cartesian_velocity := ⟨0.01, 0, 0, 0, 0, 0⟩ }).moving = true :=
  ⟨convert_moving_rule.2.1 _ rfl rfl, convert_moving_rule.2.2 _ (Or.inr (Or.inl rfl))⟩

/-- Claim C5: the decoder's conversion multiplies the Cartesian pose
linear components by 1000 (m→mm), multiplies every angular position
and angular rate (pose roll/pitch/yaw, joint positions, joint
velocities) by `180 / Math.PI` (rad→deg), and passes joint torques
through unchanged; a frame whose Cartesian x field carries the double
nearest 0.150 m decodes to `currentPose.x = 150.0` mm within 1e-6, and
a joint angle of π/2 rad (the double `Math.PI / 2`) decodes to exactly
90 degrees. -/
theorem convert_unit_conversion :
    (∀ d : RobotStateData ℚ,
      (convertToRobotArmState d).currentPose.x = d.cartesian_pose.x * 1000 ∧
      (convertToRobotArmState d).currentPose.y = d.cartesian_pose.y * 1000 ∧
      (convertToRobotArmState d).currentPose.z = d.cartesian_pose.z * 1000 ∧
      (convertToRobotArmState d).currentPose.roll = d.cartesian_pose.roll * 180 / MathPI ∧
      (convertToRobotArmState d).currentPose.pitch = d.cartesian_pose.pitch * 180 / MathPI ∧
      (convertToRobotArmState d).currentPose.yaw = d.cartesian_pose.yaw * 180 / MathPI ∧
      (convertToRobotArmState d).jointPositions =
        d.joint_position.map (fun pos => pos * 180 / MathPI) ∧
      (convertToRobotArmState d).jointVelocities =
        d.joint_velocity.map (fun vel => vel * 180 / MathPI) ∧
      (convertToRobotArmState d).jointTorques = d.joint_torques) ∧
    (∀ d : RobotStateData ℚ,
      d.cartesian_pose.x = 5404319552844595 / 36028797018963968 →
      |(convertToRobotArmState d).currentPose.x - 150| < 1 / 1000000) ∧
    (∀ d : RobotStateData ℚ, MathPI / 2 ∈ d.joint_position →
      (90 : ℚ) ∈ (convertToRobotArmState d).jointPositions) := by
  refine ⟨?_, ?_, ?_⟩
  · intro d
    exact ⟨rfl, rfl, rfl, rfl, rfl, rfl, rfl, rfl, rfl⟩
  · intro d h
    have hx : (convertToRobotArmState d).currentPose.x = d.cartesian_pose.x * 1000 := rfl
    rw [hx, h, abs_lt]
    constructor <;> norm_num
  · intro d h
    have h90 : MathPI / 2 * 180 / MathPI = 90 := by
      rw [div_eq_iff (by unfold MathPI; norm_num : MathPI ≠ 0)]
      ring
    have hmem : MathPI / 2 * 180 / MathPI ∈ (convertToRobotArmState d).jointPositions :=
      List.mem_map_of_mem _ h
    rwa [h90] at hmem

/-- Witness for C5: the conversion instances at a concrete frame — the
double nearest 0.150 m becomes 150 mm within 1e-6, and `Math.PI / 2`
rad becomes 90 degrees. -/
theorem convert_unit_conversion_witness :
    |(convertToRobotArmState
      { joint_position := [MathPI / 2, 0, 0, 0, 0, 0], joint_velocity := [0, 0, 0, 0, 0, 0],
        joint_torques := [0, 0, 0, 0, 0, 0],
        cartesian_pose := ⟨5404319552844595 / 36028797018963968, 0, 0, 0, 0, 0⟩,
        cartesian_velocity := ⟨0, 0, 0, 0, 0, 0⟩ }).currentPose.x - 150| < 1 / 1000000 ∧
    (90 : ℚ) ∈ (convertToRobotArmState
      { joint_position := [MathPI / 2, 0, 0, 0, 0, 0], joint_velocity := [0, 0, 0, 0, 0, 0],
        joint_torques := [0, 0, 0, 0, 0, 0],
        cartesian_pose := ⟨5404319552844595 / 36028797018963968, 0, 0, 0, 0, 0⟩,
        cartesian_velocity := ⟨0, 0, 0, 0, 0, 0⟩ }).jointPositions :=
  ⟨convert_unit_conversion.2.1 _ rfl, convert_unit_conversion.2.2 _ (by simp)⟩

/-- Claim C6: in the receive loop a successful receive resets the
consecutive-timeout counter to zero; when the counter reaches
`maxConsecutiveTimeouts` (default 3) the loop emits exactly one
`error` event plus one status event and terminates (any further trace
is ignored); and two consecutive timeouts followed by a successful
receive produce no error event. -/
theorem loop_timeout_escalation :
    (∀ (maxT cnt : Nat) (parseOk : Bool) (rest : List RecvOutcome),
      runSubscriptionLoop maxT cnt (.message parseOk :: rest) =
        (if parseOk then [.stateUpdate] else []) ++ runSubscriptionLoop maxT 0 rest) ∧
    (∀ rest : List RecvOutcome,
      runSubscriptionLoop 3 0 (.timeout :: .timeout :: .timeout :: rest) =
        [.errorEvent, .statusChanged .errorStatus]) ∧
    (∀ rest : List RecvOutcome,
      (runSubscriptionLoop 3 0 (.timeout :: .timeout :: .timeout :: rest)).count
        .errorEvent = 1) ∧
    runSubscriptionLoop 3 0 [.timeout, .timeout, .message true] = [.stateUpdate] ∧
    (∀ cfg : ConnectionConfig, cfg.maxConsecutiveTimeouts = none →
      maxConsecutiveTimeoutsOf cfg = 3) := by
  have h2 : ∀ rest : List RecvOutcome,
      runSubscriptionLoop 3 0 (.timeout :: .timeout :: .timeout :: rest) =
        [.errorEvent, .statusChanged .errorStatus] := fun rest => rfl
  refine ⟨fun maxT cnt parseOk rest => rfl, h2, fun rest => by rw [h2 rest]; rfl, rfl, ?_⟩
  intro cfg h
  simp [maxConsecutiveTimeoutsOf, h]

/-- Witness for C6: the loop equations at concrete traces and the
default threshold at a concrete configuration. -/
theorem loop_timeout_escalation_witness :
    runSubscriptionLoop 3 0 (.timeout :: .timeout :: .timeout :: [.message true]) =
      [.errorEvent, .statusChanged .errorStatus] ∧
    maxConsecutiveTimeoutsOf
      { ipAddress := "localhost", port := 5555, topic := some "arm_state",
        messageTimeout := some 10000, maxConsecutiveTimeouts := none } = 3 :=
  ⟨loop_timeout_escalation.2.1 [.message true], loop_timeout_escalation.2.2.2.2 _ rfl⟩

/-- Claim C7: calling `connect` while the lifecycle is already
`Connecting` or `Connected` is a no-op: it returns immediately, leaves
the lifecycle state (flags and stored configuration) unchanged, emits
no events, and does not attempt a second discovery handshake. -/
theorem connect_noop_when_busy (st : SubscriberState) (cfg : Option PartialConnectionConfig)
    (handshakeOk : Bool) (h : st.isConnecting = true ∨ st.isConnected = true) :
    connect st cfg handshakeOk = (st, [], false) := by
  rcases h with h | h <;> simp [connect, h]

/-- Witness for C7: `connect` is a no-op at a concrete `Connecting`
state. -/
theorem connect_noop_when_busy_witness :
    connect
      { isConnected := false, isConnecting := true,
        currentConfig := { ipAddress := "localhost", port := 5555, topic := some "arm_state",
                           messageTimeout := some 10000, maxConsecutiveTimeouts := some 3 } }
      none true =
      ({ isConnected := false, isConnecting := true,
         currentConfig := { ipAddress := "localhost", port := 5555, topic := some "arm_state",
                            messageTimeout := some 10000, maxConsecutiveTimeouts := some 3 } },
       [], false) :=
  connect_noop_when_busy _ none true (Or.inl rfl)

/-- Counterexample for C1: `save_home_position` and
`reset_home_position` are commands of the closed set, distinct from
`emergency_stop` and from connect/disconnect/reconnect, yet
`executeCommand` run with the connected flag `false` returns a success
result for them instead of a "not connected" error. -/
theorem executeCommand_home_position_no_guard :
    executeCommand false "save_home_position" none =
      ToolResponse.toolResult "Home position saved" ∧
    executeCommand false "reset_home_position" none =
      ToolResponse.toolResult "Home position reset to default" :=
  ⟨rfl, rfl⟩

/-- Claim C1 (amended): with the connected flag `false`,
`executeCommand` returns the "not connected" error exactly for the
guarded commands `enable`, `disable`, `home`, `move_to_target`, `stop`
and `reset` (not for `save_home_position` / `reset_home_position`,
which skip the guard), and `emergency_stop` still returns a success
result — never a not-connected error. -/
theorem executeCommand_not_connected_guard (cmd : String) (data : Option ConnectCommandData)
    (h : cmd ∈ ["enable", "disable", "home", "move_to_target", "stop", "reset"]) :
    executeCommand false cmd data = .toolError "Robot arm is not connected" ∧
    executeCommand false "emergency_stop" data = .toolResult "Emergency stop activated" := by
  constructor
  · simp only [List.mem_cons, List.not_mem_nil, or_false] at h
    rcases h with rfl | rfl | rfl | rfl | rfl | rfl <;> rfl
  · rfl

/-- Witness for C1: the guard at `stop` and the `emergency_stop`
exemption, both with the connected flag `false`. -/
theorem executeCommand_not_connected_guard_witness :
    executeCommand false "stop" none = .toolError "Robot arm is not connected" ∧
    executeCommand false "emergency_stop" none = .toolResult "Emergency stop activated" :=
  executeCommand_not_connected_guard "stop" none (by decide)
